import Mathlib

/-!
Verification of the KONCHAT fuel-station report parser (src/parser.py).

This file gives a shallow embedding of the parsing module: Python strings
become Lean String values, Python floats become Rat (exact rationals,
which is faithful for the control-flow thresholds the claims are about),
Python dicts that always carry the same keys become structures, and the
handful of regular expressions in the source are executed by a small
backtracking matcher that mirrors the leftmost, ordered-alternation,
greedy/lazy semantics of the re module.  The system clock (datetime.now)
is passed in explicitly as a value of type NowClock.

Naming follows the source: parseDailyReport, extractReportDate,
parseFuelLine, mapFuelTypesToStandard, and so on correspond to the
same-named Python functions.
-/

namespace Konchat

/-! ## Python string primitives -/

/-- Whitespace characters recognised by str.strip and the regex class for
whitespace, restricted to the ASCII range that actually occurs in the
inputs of this repository. -/
def isPyWS (c : Char) : Bool :=
  c = ' ' || c = '\t' || c = '\n' || c = '\r' || c = Char.ofNat 11 || c = Char.ofNat 12

/-- str.strip on a list of characters. -/
def stripList (l : List Char) : List Char :=
  ((l.dropWhile isPyWS).reverse.dropWhile isPyWS).reverse

/-- Python str.strip(). -/
def pyStrip (s : String) : String := String.mk (stripList s.data)

/-- Python str.lower restricted to ASCII; Khmer characters are unchanged
by str.lower, which this map reproduces. -/
def pyLower (s : String) : String := s.map Char.toLower

/-- Python substring membership: needle in hay. -/
def strContains (hay needle : String) : Bool :=
  (List.range (hay.data.length + 1)).any fun i => needle.data.isPrefixOf (hay.data.drop i)

/-- The line list built at the top of parse_daily_report:
split on newlines, strip every line, keep the non-empty ones. -/
def pyLines (text : String) : List String :=
  ((text.splitOn "\n").map pyStrip).filter (fun l => l ≠ "")

/-- One step of collapsing whitespace runs, fuel-bounded; the fuel is
always instantiated with the length of the list, which suffices because
every step consumes at least one character. -/
def collapseWsGo : Nat → List Char → List Char
  | 0, _ => []
  | _, [] => []
  | n + 1, c :: rest =>
    if isPyWS c then ' ' :: collapseWsGo n (rest.dropWhile isPyWS)
    else c :: collapseWsGo n rest

/-- re.sub of one-or-more whitespace with a single space. -/
def collapseWs (s : String) : String :=
  String.mk (collapseWsGo s.data.length s.data)

/-- The punctuation class stripped from the ends of a station name. -/
def isStationPunct (c : Char) : Bool :=
  c = ',' || c = '-' || c = '–' || c = '—' || c = '.' || c = ':' || c = ';'

/-- re.sub removing a leading run and a trailing run of station
punctuation (the caret-anchored alternation in extract_station_name). -/
def stripPunctEnds (s : String) : String :=
  let l := s.data.dropWhile isStationPunct
  String.mk ((l.reverse.dropWhile isStationPunct).reverse)

/-- Python str.isspace(): non-empty and all whitespace. -/
def pyIsSpace (s : String) : Bool :=
  !s.data.isEmpty && s.data.all isPyWS

/-- Numeric value of a list of ASCII digits (most significant first). -/
def natOfDigits (l : List Char) : Nat :=
  l.foldl (fun a c => a * 10 + (c.toNat - 48)) 0

/-- Python float() on a decimal string: optional surrounding whitespace,
optional sign, digits with at most one decimal point and at least one
digit.  Exponent forms never occur in this code path and are not
modelled.  Returns none where float() raises ValueError. -/
def parsePyFloat (s : String) : Option Rat :=
  let l := stripList s.data
  let sgn : Rat := if l.head? = some '-' then -1 else 1
  let l := match l with
    | '-' :: t => t
    | '+' :: t => t
    | t => t
  let intPart := l.takeWhile Char.isDigit
  let rest := l.drop intPart.length
  match rest with
  | [] => if intPart.isEmpty then none else some (sgn * (natOfDigits intPart : Rat))
  | '.' :: frac =>
    let fracD := frac.takeWhile Char.isDigit
    if frac.length ≠ fracD.length then none
    else if intPart.isEmpty && fracD.isEmpty then none
    else some (sgn * ((natOfDigits intPart : Rat) +
      (natOfDigits fracD : Rat) / ((10 : Rat) ^ fracD.length)))
  | _ => none

/-- The clean_number helper inside parse_fuel_line: strip every character
that is not a digit or a decimal point. -/
def cleanNumberStr (s : String) : String :=
  String.mk (s.data.filter (fun c => c.isDigit || c = '.'))

/-- clean_number: empty after cleaning gives 0.0, otherwise float() on
the cleaned text; none models the ValueError that the caller catches. -/
def cleanNumber (s : String) : Option Rat :=
  let c := cleanNumberStr s
  if c = "" then some 0 else parsePyFloat c

/-! ## Dates -/

/-- A datetime.date value. -/
structure PyDate where
  day : Nat
  month : Nat
  year : Nat
deriving Repr, DecidableEq

/-- Gregorian leap year, as datetime uses. -/
def isLeapYear (y : Nat) : Bool :=
  (y % 4 = 0 && y % 100 ≠ 0) || y % 400 = 0

/-- Days in a month of a given year. -/
def daysInMonth (y m : Nat) : Nat :=
  if m = 2 then (if isLeapYear y then 29 else 28)
  else if m = 4 || m = 6 || m = 9 || m = 11 then 30
  else 31

/-- Validity of a date exactly as the datetime.date constructor checks it
(including the MINYEAR..MAXYEAR range). -/
def validDate (d : PyDate) : Bool :=
  1 ≤ d.year && d.year ≤ 9999 &&
  1 ≤ d.month && d.month ≤ 12 &&
  1 ≤ d.day && d.day ≤ daysInMonth d.year d.month

/-- The datetime.date constructor: some date on success, none where
Python raises ValueError. -/
def mkValidDate (day month year : Nat) : Option PyDate :=
  if validDate ⟨day, month, year⟩ then some ⟨day, month, year⟩ else none

/-- Sort key realising the chronological order on dates. -/
def dateKey (d : PyDate) : Nat :=
  d.year * 10000 + d.month * 100 + d.day

/-- Python max() over a list of dates (first maximal element wins ties,
none on the empty list, matching the guard in the source). -/
def maxDateList : List PyDate → Option PyDate
  | [] => none
  | d :: rest => some (rest.foldl (fun acc x => if dateKey acc < dateKey x then x else acc) d)

/-- A two-digit zero-padded field of strftime; for the day, month and
two-digit-year fields produced here the value is below 100, where this
agrees with strftime. -/
def twoDigit (n : Nat) : List Char :=
  [Char.ofNat (48 + n / 10 % 10), Char.ofNat (48 + n % 10)]

/-- strftime of a date in the canonical output format dd/mm/yy. -/
def formatDMY (d : PyDate) : String :=
  String.mk (twoDigit d.day ++ '/' :: twoDigit d.month ++ '/' :: twoDigit (d.year % 100))

/-- Shape of the canonical dd/mm/yy output format: exactly eight
characters, digits everywhere except slashes at positions 2 and 5. -/
def isCanonicalDMY (s : String) : Bool :=
  match s.data with
  | [a, b, '/', c, d, '/', e, f] =>
    a.isDigit && b.isDigit && c.isDigit && d.isDigit && e.isDigit && f.isDigit
  | _ => false

/-! ## A small backtracking regex matcher

Only the constructs used by the patterns in parser.py are supported:
character classes with counted repetition (greedy or lazy), literals
(optionally case-insensitive), ordered alternation, concatenation,
capture groups and the lazy dot-star.  The matcher explores choices in
exactly the order the re module does (leftmost start, alternatives in
order, greedy tries longest first, lazy shortest first), returning the
first full success, which reproduces the re module semantics for these
patterns. -/

inductive RE where
  | eps : RE
  | cls (p : Char → Bool) : RE
  | lit (s : List Char) (ci : Bool) : RE
  | seq (a b : RE) : RE
  | alt (a b : RE) : RE
  | rep (p : Char → Bool) (lo : Nat) (hi : Option Nat) (greedy : Bool) : RE
  | grp (n : Nat) (r : RE) : RE

/-- Sequence of several regexes. -/
def RE.seqList (l : List RE) : RE :=
  l.foldr RE.seq RE.eps

/-- Ordered alternation of several regexes (first one wins). -/
def RE.altList : List RE → RE
  | [] => RE.eps
  | [r] => r
  | r :: rest => RE.alt r (RE.altList rest)

/-- Instruction stack entries for the matcher: a regex still to match, or
the closing of a capture group opened at a remembered position. -/
inductive RI where
  | re (r : RE) : RI
  | endg (n : Nat) (start : List Char) : RI

def RE.size : RE → Nat
  | .eps => 1
  | .cls _ => 1
  | .lit _ _ => 1
  | .rep _ _ _ _ => 1
  | .seq a b => 1 + a.size + b.size
  | .alt a b => 1 + a.size + b.size
  | .grp _ r => 2 + r.size

def RI.size : RI → Nat
  | .re r => r.size
  | .endg _ _ => 1

def stackSize (l : List RI) : Nat := (l.map RI.size).sum

/-- Case-insensitive-capable literal prefix test. -/
def litPrefix (s : List Char) (ci : Bool) (cs : List Char) : Bool :=
  if ci then (s.map Char.toLower).isPrefixOf (cs.map Char.toLower |>.take s.length)
  else s.isPrefixOf cs

/-- First some in a list of options. -/
def firstSome {α : Type} : List (Option α) → Option α
  | [] => none
  | some a :: _ => some a
  | none :: rest => firstSome rest

/-- The matcher.  Groups are captured as (index, text) pairs, most recent
first.  The fuel only bounds recursion depth; every recursive call
strictly decreases the total stack size, so fuel = stackSize + 1 always
suffices and the function then behaves exactly like the re module on the
supported patterns. -/
def matchSt : Nat → List RI → List Char → List (Nat × List Char) →
    Option (List Char × List (Nat × List Char))
  | 0, _, _, _ => none
  | _ + 1, [], cs, g => some (cs, g)
  | fuel + 1, i :: k, cs, g =>
    match i with
    | .re .eps => matchSt fuel k cs g
    | .re (.cls p) =>
      match cs with
      | [] => none
      | c :: cs' => if p c then matchSt fuel k cs' g else none
    | .re (.lit s ci) =>
      if litPrefix s ci cs then matchSt fuel k (cs.drop s.length) g else none
    | .re (.seq a b) => matchSt fuel (.re a :: .re b :: k) cs g
    | .re (.alt a b) =>
      match matchSt fuel (.re a :: k) cs g with
      | some r => some r
      | none => matchSt fuel (.re b :: k) cs g
    | .re (.rep p lo hi greedy) =>
      let run := (cs.takeWhile p).length
      let mx := match hi with
        | some h => min h run
        | none => run
      if lo > mx then none
      else
        let cands := (List.range (mx + 1 - lo)).map
          (fun j => if greedy then mx - j else lo + j)
        firstSome (cands.map (fun n => matchSt fuel k (cs.drop n) g))
    | .re (.grp n r) => matchSt fuel (.re r :: .endg n cs :: k) cs g
    | .endg n start =>
      matchSt fuel k cs ((n, start.take (start.length - cs.length)) :: g)

/-- Run a regex anchored at the start of the input; on success returns
the remaining input and the captured groups. -/
def matchHere (r : RE) (cs : List Char) : Option (List Char × List (Nat × List Char)) :=
  matchSt (stackSize [.re r] + 1) [.re r] cs []

/-- Last capture of a group (the re module keeps the most recent one). -/
def groupGet (g : List (Nat × List Char)) (n : Nat) : List Char :=
  match g.find? (fun x => x.1 = n) with
  | some x => x.2
  | none => []

/-- re.search: try the pattern at every start position, leftmost first.
Returns (matched text, input after the match, groups). -/
def reSearchGo : Nat → RE → List Char → Option (List Char × List Char × List (Nat × List Char))
  | 0, _, _ => none
  | fuel + 1, r, cs =>
    match matchHere r cs with
    | some (rest, g) => some (cs.take (cs.length - rest.length), rest, g)
    | none =>
      match cs with
      | [] => none
      | _ :: cs' => reSearchGo fuel r cs'

def reSearch (r : RE) (cs : List Char) : Option (List Char × List Char × List (Nat × List Char)) :=
  reSearchGo (cs.length + 1) r cs

/-- re.findall restricted to what the source needs: the list of matches
(full match text together with groups), scanning non-overlapping
occurrences left to right; a zero-width match advances one character as
the re module does. -/
def reFindAllGo : Nat → RE → List Char → List (List Char × List (Nat × List Char))
  | 0, _, _ => []
  | fuel + 1, r, cs =>
    match reSearch r cs with
    | none => []
    | some (m, rest, g) =>
      if m.isEmpty then
        match rest with
        | [] => [(m, g)]
        | _ :: rest' => (m, g) :: reFindAllGo fuel r rest'
      else (m, g) :: reFindAllGo fuel r rest

def reFindAll (r : RE) (cs : List Char) : List (List Char × List (Nat × List Char)) :=
  reFindAllGo (cs.length + 1) r cs

/-- re.sub with an empty replacement: delete every non-overlapping match,
left to right. -/
def reSubEmptyGo : Nat → RE → List Char → List Char
  | 0, _, cs => cs
  | fuel + 1, r, cs =>
    match matchHere r cs with
    | some (rest, _) =>
      if rest.length = cs.length then
        match cs with
        | [] => []
        | c :: cs' => c :: reSubEmptyGo fuel r cs'
      else reSubEmptyGo fuel r rest
    | none =>
      match cs with
      | [] => []
      | c :: cs' => c :: reSubEmptyGo fuel r cs'

def reSubEmpty (r : RE) (s : String) : String :=
  String.mk (reSubEmptyGo (s.data.length + 1) r s.data)

/-! ## Character classes used by the patterns -/

def isAsciiAlpha (c : Char) : Bool := c.isAlpha

/-- The Khmer block used in the fuel-line label class. -/
def isKhmer (c : Char) : Bool := 0x1780 ≤ c.toNat && c.toNat ≤ 0x17FF

/-- The label class of the fuel-line regexes. -/
def isLabelChar (c : Char) : Bool := isAsciiAlpha c || isKhmer c || isPyWS c

/-- Word characters for the word-boundary scan, covering the scripts that
occur in these reports (ASCII alphanumerics, underscore, Khmer). -/
def isWordChar (c : Char) : Bool := c.isAlphanum || c = '_' || isKhmer c

def isDigitChar (c : Char) : Bool := c.isDigit

def isDigitComma (c : Char) : Bool := c.isDigit || c = ','

/-- Any character except a newline (the dot of the re module). -/
def isDotChar (c : Char) : Bool := c ≠ '\n'

/-! ## The compiled patterns of ReportParser -/

/-- A counted greedy digit repetition. -/
def reD (lo hi : Nat) : RE := .rep isDigitChar lo (some hi) true

def reDPlus : RE := .rep isDigitChar 1 none true

def reDStar : RE := .rep isDigitChar 0 none true

def reWS : RE := .rep isPyWS 1 none true

def reWSStar : RE := .rep isPyWS 0 none true

/-- The number shape of the source patterns (digits or commas, an
optional decimal point, trailing digits). -/
def numRE : RE := RE.seqList [.rep isDigitComma 1 none true, .rep (fun c => c = '.') 0 (some 1) true, reDStar]

/-- The day-month-name-year date body of the range pattern and the first
single-date pattern. -/
def dateBodyRE : RE :=
  RE.seqList [reD 1 2, .lit ['-'] false, .rep isAsciiAlpha 3 (some 9) true, .lit ['-'] false, reD 4 4]

/-- The six single-date patterns of ReportParser.date_patterns, each one
a single capture group as in the source. -/
def datePatterns : List RE :=
  [ .grp 1 dateBodyRE,
    .grp 1 (RE.seqList [reD 1 2, .lit ['/'] false, reD 1 2, .lit ['/'] false, reD 4 4]),
    .grp 1 (RE.seqList [reD 1 2, .lit ['/'] false, reD 1 2, .lit ['/'] false, reD 2 2]),
    .grp 1 (RE.seqList [reD 4 4, .lit ['-'] false, reD 2 2, .lit ['-'] false, reD 2 2]),
    .grp 1 (RE.seqList [reD 2 2, .lit ['-'] false, reD 2 2, .lit ['-'] false, reD 4 4]),
    .grp 1 (RE.seqList [reD 1 2, .lit ['.'] false, reD 1 2, .lit ['.'] false, reD 4 4]) ]

/-- The date-range pattern (case-insensitive, lazy gaps around the word
to). -/
def dateRangeRE : RE :=
  RE.seqList [.grp 1 dateBodyRE, .rep isDotChar 0 none false, .lit ['t', 'o'] true,
    .rep isDotChar 0 none false, .grp 2 dateBodyRE]

/-- ReportParser.pump_pattern (case-insensitive). -/
def pumpRE : RE :=
  .grp 1 (RE.altList
    [ RE.seqList [.lit ['P', 'u', 'm', 'p'] true, reWS, reDPlus],
      RE.seqList [.lit ['P'] true, reDPlus],
      RE.seqList [.lit ['P', 'u', 'm', 'p'] true, reDPlus] ])

/-- Method 3 of parse_fuel_line: lazy label, then two numbers. -/
def fuelLineRE3 : RE :=
  RE.seqList [.grp 1 (.rep isLabelChar 1 none false), reWS, .grp 2 numRE, reWS, .grp 3 numRE]

/-- Method 4 of parse_fuel_line: lazy label, then one number. -/
def fuelLineRE4 : RE :=
  RE.seqList [.grp 1 (.rep isLabelChar 1 none false), reWS, .grp 2 numRE]

/-- The cleaning pattern in map_fuel_types_to_standard (parenthesised or
bracketed text, and unit words with surrounding whitespace). -/
def fuelCleanRE : RE :=
  RE.altList
    [ RE.seqList [.lit ['('] false, .rep isDotChar 0 none false, .lit [')'] false],
      RE.seqList [.lit ['['] false, .rep isDotChar 0 none false, .lit [']'] false],
      RE.seqList [reWSStar, .lit ['L'] false, reWSStar],
      RE.seqList [reWSStar, .lit ['l', 'i', 't', 'r', 'e'] false, reWSStar],
      RE.seqList [reWSStar, .lit ['l', 'i', 't', 'e', 'r', 's'] false, reWSStar],
      RE.seqList [reWSStar, .lit ['ℓ'] false, reWSStar],
      RE.seqList [reWSStar, .lit ['g', 'a', 'l'] false, reWSStar],
      RE.seqList [reWSStar, .lit ['g', 'a', 'l', 'l', 'o', 'n'] false, reWSStar] ]

/-- The strings matched by ReportParser.number_pattern in a line. -/
def numbersIn (line : String) : List String :=
  (reFindAll numRE line.data).map (fun x => String.mk x.1)

/-- ReportParser.currency_pattern substituted by the empty string. -/
def currencySub (s : String) : String :=
  String.mk (s.data.filter (fun c => c ≠ '$' && c ≠ '៛'))

/-- Python str.replace removing commas. -/
def dropCommas (s : String) : String :=
  String.mk (s.data.filter (fun c => c ≠ ','))

/-! ## Splitting helpers -/

/-- re.split on a single-character class: every separator character cuts,
empty pieces are kept. -/
def splitOnClass (p : Char → Bool) (s : String) : List String :=
  (s.data.foldr
    (fun c acc =>
      if p c then [] :: acc
      else match acc with
        | h :: t => (c :: h) :: t
        | [] => [[c]])
    [[]]).map String.mk

/-- re.split on runs of two or more whitespace characters; fuel-driven
scan consuming at least one character per step. -/
def splitWs2Go : Nat → List Char → List Char → List String
  | 0, acc, _ => [String.mk acc.reverse]
  | _, acc, [] => [String.mk acc.reverse]
  | n + 1, acc, c :: rest =>
    if isPyWS c && (match rest with | r :: _ => isPyWS r | [] => false) then
      String.mk acc.reverse :: splitWs2Go n [] (rest.dropWhile isPyWS)
    else splitWs2Go n (c :: acc) rest

def splitWs2 (s : String) : List String :=
  splitWs2Go (s.data.length + 1) [] s.data

/-- re.split on one-or-more tabs or runs of two or more whitespace
characters (the total-sales fallback split). -/
def splitTabsWs2Go : Nat → List Char → List Char → List String
  | 0, acc, _ => [String.mk acc.reverse]
  | _, acc, [] => [String.mk acc.reverse]
  | n + 1, acc, c :: rest =>
    if c = '\t' then
      String.mk acc.reverse :: splitTabsWs2Go n [] (rest.dropWhile (fun x => x = '\t'))
    else if isPyWS c && (match rest with | r :: _ => isPyWS r | [] => false) then
      String.mk acc.reverse :: splitTabsWs2Go n [] (rest.dropWhile isPyWS)
    else splitTabsWs2Go n (c :: acc) rest

def splitTabsWs2 (s : String) : List String :=
  splitTabsWs2Go (s.data.length + 1) [] s.data

/-- Python str.split() with no argument: tokens separated by whitespace
runs, with no empty tokens. -/
def splitWsTokensGo : Nat → List Char → List String
  | 0, _ => []
  | _, [] => []
  | n + 1, cs =>
    let cs := cs.dropWhile isPyWS
    match cs with
    | [] => []
    | _ =>
      let tok := cs.takeWhile (fun c => !isPyWS c)
      String.mk tok :: splitWsTokensGo n (cs.drop tok.length)

def splitWsTokens (s : String) : List String :=
  splitWsTokensGo (s.data.length + 1) s.data

/-- The word-boundary scan for one-to-four-digit tokens: maximal digit
runs of length at most 4 whose neighbours are not word characters. -/
def numTokensGo : Nat → Option Char → List Char → List String
  | 0, _, _ => []
  | _, _, [] => []
  | n + 1, prev, c :: rest =>
    if c.isDigit then
      let run := c :: rest.takeWhile Char.isDigit
      let after := rest.drop (run.length - 1)
      let okBefore := match prev with
        | some p => !isWordChar p
        | none => true
      let okAfter := match after with
        | a :: _ => !isWordChar a
        | [] => true
      if okBefore && run.length ≤ 4 && okAfter then
        String.mk run :: numTokensGo n (some (run.getLastD c)) after
      else numTokensGo n (some (run.getLastD c)) after
    else numTokensGo n (some c) rest

def numTokens (s : String) : List String :=
  numTokensGo (s.data.length + 1) none s.data

/-! ## strptime, for the eight formats tried by _parse_date_string -/

/-- Month abbreviations with their numbers, in strptime order. -/
def monthAbbrevPairs : List (String × Nat) :=
  [("jan", 1), ("feb", 2), ("mar", 3), ("apr", 4), ("may", 5), ("jun", 6),
   ("jul", 7), ("aug", 8), ("sep", 9), ("oct", 10), ("nov", 11), ("dec", 12)]

/-- Full month names with their numbers, sorted by length descending with
ties in calendar order, which is the alternation order strptime
compiles. -/
def monthFullPairs : List (String × Nat) :=
  [("september", 9), ("february", 2), ("november", 11), ("december", 12),
   ("january", 1), ("october", 10), ("august", 8), ("march", 3), ("april", 4),
   ("june", 6), ("july", 7), ("may", 5)]

/-- Month number of a matched month-name group (abbreviation or full
name, case-insensitive). -/
def monthNumOfName (s : String) : Option Nat :=
  let ls := pyLower s
  match monthAbbrevPairs.find? (fun p => p.1 = ls) with
  | some p => some p.2
  | none =>
    match monthFullPairs.find? (fun p => p.1 = ls) with
    | some p => some p.2
    | none => none

/-- The strptime character alternation for a day field (two-digit
alternatives first, then one digit, values 1 to 31). -/
def dayRE : RE :=
  RE.altList
    [ RE.seq (.cls (fun c => c = '3')) (.cls (fun c => c = '0' || c = '1')),
      RE.seq (.cls (fun c => c = '1' || c = '2')) (.cls Char.isDigit),
      RE.seq (.cls (fun c => c = '0')) (.cls (fun c => c.isDigit && c ≠ '0')),
      .cls (fun c => c.isDigit && c ≠ '0') ]

/-- The strptime alternation for a month-number field (values 1 to 12). -/
def monthRE : RE :=
  RE.altList
    [ RE.seq (.cls (fun c => c = '1')) (.cls (fun c => c = '0' || c = '1' || c = '2')),
      RE.seq (.cls (fun c => c = '0')) (.cls (fun c => c.isDigit && c ≠ '0')),
      .cls (fun c => c.isDigit && c ≠ '0') ]

/-- Case-insensitive alternation over month abbreviations. -/
def monthAbbrevRE : RE :=
  RE.altList (monthAbbrevPairs.map (fun p => .lit p.1.data true))

/-- Case-insensitive alternation over full month names. -/
def monthFullRE : RE :=
  RE.altList (monthFullPairs.map (fun p => .lit p.1.data true))

/-- Anchored full match: the pattern must consume the entire string, as
strptime requires. -/
def matchFull (r : RE) (cs : List Char) : Option (List (Nat × List Char)) :=
  match matchHere r cs with
  | some ([], g) => some g
  | _ => none

/-- The strptime two-digit-year pivot: 00 to 68 are the 2000s, 69 to 99
the 1900s. -/
def yearOf2 (s : List Char) : Nat :=
  let y := natOfDigits s
  if y ≤ 68 then y + 2000 else y + 1900

/-- Numeric day, month-number and year groups assembled into a date. -/
def convNumDMY (yearMap : List Char → Nat) (g : List (Nat × List Char)) : Option PyDate :=
  mkValidDate (natOfDigits (groupGet g 1)) (natOfDigits (groupGet g 2)) (yearMap (groupGet g 3))

/-- Day, month-name and year groups assembled into a date. -/
def convNameDMY (yearMap : List Char → Nat) (g : List (Nat × List Char)) : Option PyDate :=
  match monthNumOfName (String.mk (groupGet g 2)) with
  | some m => mkValidDate (natOfDigits (groupGet g 1)) m (yearMap (groupGet g 3))
  | none => none

/-- Year-month-day groups (the ISO format) assembled into a date. -/
def convYMD (g : List (Nat × List Char)) : Option PyDate :=
  mkValidDate (natOfDigits (groupGet g 3)) (natOfDigits (groupGet g 2)) (natOfDigits (groupGet g 1))

/-- One strptime format: an anchored pattern plus the group
interpretation. -/
def runDateFormat (r : RE) (conv : List (Nat × List Char) → Option PyDate)
    (cs : List Char) : Option PyDate :=
  match matchFull r cs with
  | some g => conv g
  | none => none

/-- strptime with the format d/m/y (two-digit year); also the canonical
date-format check used by the validator. -/
def strptimeDMY2 (cs : List Char) : Option PyDate :=
  runDateFormat (RE.seqList [.grp 1 dayRE, .lit ['/'] false, .grp 2 monthRE,
    .lit ['/'] false, .grp 3 (reD 2 2)]) (convNumDMY yearOf2) cs

/-- The eight formats of _parse_date_string, in order.  A space in a
strptime format matches a whitespace run. -/
def dateFormatRunners : List (List Char → Option PyDate) :=
  [ runDateFormat (RE.seqList [.grp 1 dayRE, .lit ['-'] false, .grp 2 monthAbbrevRE,
      .lit ['-'] false, .grp 3 (reD 4 4)]) (convNameDMY natOfDigits),
    runDateFormat (RE.seqList [.grp 1 dayRE, .lit ['-'] false, .grp 2 monthAbbrevRE,
      .lit ['-'] false, .grp 3 (reD 2 2)]) (convNameDMY yearOf2),
    runDateFormat (RE.seqList [.grp 1 dayRE, .lit ['/'] false, .grp 2 monthRE,
      .lit ['/'] false, .grp 3 (reD 4 4)]) (convNumDMY natOfDigits),
    strptimeDMY2,
    runDateFormat (RE.seqList [.grp 1 (reD 4 4), .lit ['-'] false, .grp 2 monthRE,
      .lit ['-'] false, .grp 3 dayRE]) convYMD,
    runDateFormat (RE.seqList [.grp 1 dayRE, .lit ['.'] false, .grp 2 monthRE,
      .lit ['.'] false, .grp 3 (reD 4 4)]) (convNumDMY natOfDigits),
    runDateFormat (RE.seqList [.grp 1 dayRE, reWS, .grp 2 monthAbbrevRE,
      reWS, .grp 3 (reD 4 4)]) (convNameDMY natOfDigits),
    runDateFormat (RE.seqList [.grp 1 dayRE, reWS, .grp 2 monthFullRE,
      reWS, .grp 3 (reD 4 4)]) (convNameDMY natOfDigits) ]

/-- The month_mapping table of _parse_date_string, in insertion order. -/
def monthMappingPairs : List (String × String) :=
  [("jan", "Jan"), ("feb", "Feb"), ("mar", "Mar"), ("apr", "Apr"),
   ("may", "May"), ("jun", "Jun"), ("jul", "Jul"), ("aug", "Aug"),
   ("sep", "Sep"), ("oct", "Oct"), ("nov", "Nov"), ("dec", "Dec"),
   ("january", "Jan"), ("february", "Feb"), ("march", "Mar"),
   ("april", "Apr"), ("june", "Jun"), ("july", "Jul"),
   ("august", "Aug"), ("september", "Sep"), ("october", "Oct"),
   ("november", "Nov"), ("december", "Dec")]

/-- The month-normalisation loop of _parse_date_string: the first table
entry whose key occurs in the lowered string and equals the lowered
second dash-dot-slash part replaces that part by the abbreviation, and
the parts are rejoined with dashes. -/
def normalizeMonthStr (s : String) : String :=
  let parts := splitOnClass (fun c => c = '-' || c = '.' || c = '/') s
  match monthMappingPairs.find?
      (fun p => strContains (pyLower s) p.1 && decide (parts.length ≥ 2)
        && pyLower (parts.getD 1 "") = p.1) with
  | some p => String.intercalate "-" (parts.set 1 p.2)
  | none => s

/-- _parse_date_string: normalise the month name, then try the eight
formats in order; none models the final ValueError. -/
def parseDateString (s : String) : Option PyDate :=
  let t := normalizeMonthStr s
  firstSome (dateFormatRunners.map (fun f => f t.data))

/-! ## The data model of a parse result -/

/-- One fuel-data dict.  The optional fields model keys that only some
producers set: unit_price by parse_fuel_line, pump_count by the pump
aggregation, original_fuel_type by the fuel-type mapper. -/
structure FuelItem where
  fuel_type : String
  volume : Rat
  amount : Rat
  unit_price : Option Rat := none
  pump_count : Option Nat := none
  original_fuel_type : Option String := none
deriving Repr, DecidableEq

structure Pump where
  pump_number : String
  fuels : List FuelItem
deriving Repr, DecidableEq

structure Totals where
  volume : Rat
  amount : Rat
deriving Repr, DecidableEq

/-- The dict built by validate_parsed_data. -/
structure Validation where
  is_valid : Bool
  errors : List String
  warnings : List String
  checks_passed : Nat
  checks_total : Nat
  score : Rat
deriving Repr, DecidableEq

/-- The metadata dict.  Optional fields model keys present on only one of
the success / error results (lines_processed, has_summary, has_pump_data
and validation on success; error and is_valid_flag on the error
result). -/
structure Metadata where
  parsed_at : String
  lines_processed : Option Nat
  has_summary : Option Bool
  has_pump_data : Option Bool
  validation : Option Validation
  error : Option String
  is_valid_flag : Option Bool
deriving Repr, DecidableEq

/-- The dict returned by parse_daily_report. -/
structure ParseResult where
  station_name : String
  report_date : String
  pump_data : List Pump
  summary_data : List FuelItem
  fuel_data : List FuelItem
  total_sales : Totals
  metadata : Metadata
deriving Repr, DecidableEq

/-- One reading of datetime.now(): its calendar date and its isoformat
string (the only two projections the source uses). -/
structure NowClock where
  today : PyDate
  iso : String
deriving Repr, DecidableEq

/-! ## Configuration constants of ReportParser -/

def stationPrefixes : List String :=
  ["ស្ថានីយ៍", "Station", "ស្ថានីយ", "ប៉ាន់", "អគ្គិសនី", "អ្នកលក់", "ហាង"]

/-- DEFAULT_FUEL_MAPPINGS as an association list in insertion order. -/
def defaultFuelMappings : List (String × String) :=
  [ ("Diesel", "Diesel"), ("DIESEL", "Diesel"), ("diesel", "Diesel"),
    ("DO", "Diesel"), ("do", "Diesel"), ("ប្រេងម៉ាស៊ូត", "Diesel"),
    ("Diesel Oil", "Diesel"), ("ម៉ាស៊ូត", "Diesel"), ("សាំងម៉ាស៊ូត", "Diesel"),
    ("Regular", "Regular"), ("REGULAR", "សាំង EA92 - T2"), ("regular", "Regular"),
    ("EA92", "Regular"), ("ea92", "Regular"), ("សាំង", "Regular"),
    ("Gasoline", "Regular"), ("Petrol", "Regular"), ("Unleaded", "Regular"),
    ("ធម្មតា", "Regular"), ("សាំងធម្មតា", "សាំង EA92 - T2"),
    ("Super", "Super"), ("SUPER", "Super"), ("super", "Super"),
    ("EA95", "Super"), ("ea95", "Super"), ("សាំងស៊ុបពែរ", "Super"),
    ("Premium", "Super"), ("premium", "Super"), ("Super Premium", "Super"),
    ("ស៊ុបពែរ", "Super"), ("សាំងប្រេមីយ៉ូម", "Super") ]

/-! ## Station name -/

/-- extract_station_name. -/
def extractStationName (firstLine : String) : String :=
  let sl := pyStrip firstLine
  let sl := match stationPrefixes.find? (fun p => p.isPrefixOf sl) with
    | some p => pyStrip (sl.drop p.length)
    | none => sl
  let sl := stationPrefixes.foldl
    (fun acc p => if strContains acc p && acc ≠ p then pyStrip (acc.replace p "") else acc) sl
  let sl := pyStrip (collapseWs sl)
  let sl := stripPunctEnds sl
  if sl = "" || pyIsSpace sl then collapseWs (pyStrip firstLine) else sl

/-! ## Report date -/

def dateSkipKeywords : List String :=
  ["product", "volume", "amount", "summary", "pump",
   "diesel", "regular", "super", "gasoline", "petrol"]

/-- The first loop of extract_report_date, for one line: skip keyword
lines, try the range pattern (a failed parse of its first date skips the
whole line), then the six single-date patterns in order, taking the
first regex match of each and moving to the next pattern when
_parse_date_string fails on it. -/
def findDateInLine (line : String) : Option PyDate :=
  if dateSkipKeywords.any (fun k => strContains (pyLower line) k) then none
  else
    match reSearch dateRangeRE line.data with
    | some (_, _, g) => parseDateString (String.mk (groupGet g 1))
    | none =>
      firstSome (datePatterns.map (fun p =>
        match reFindAll p line.data with
        | [] => none
        | m :: _ => parseDateString (String.mk (groupGet m.2 1))))

def findDatePhase12 (lines : List String) : Option PyDate :=
  firstSome (lines.map findDateInLine)

/-- The numeric fallback of extract_report_date on the first three
numeric tokens of a line: the three index combinations of the source
give the day-month-year readings (n0,n1,n2), (n1,n0,n2) and (n2,n1,n0);
each is range-checked with year above 100, years below 1000 get 1900
added (the two-digit branch after it is unreachable), calendar-invalid
candidates are dropped, and the latest candidate date wins. -/
def numbersCandidate (day month year : Nat) : Option PyDate :=
  if 1 ≤ day && day ≤ 31 && 1 ≤ month && month ≤ 12 && year > 100 then
    let year :=
      if year < 1000 then year + 1900
      else if year < 100 then (if year < 50 then year + 2000 else year + 1900)
      else year
    mkValidDate day month year
  else none

def tryNumbersAsDate (ns : List Nat) : Option PyDate :=
  match ns with
  | n0 :: n1 :: n2 :: _ =>
    maxDateList
      ([numbersCandidate n0 n1 n2, numbersCandidate n1 n0 n2,
        numbersCandidate n2 n1 n0].filterMap id)
  | _ => none

def findNumericDate (lines : List String) : Option PyDate :=
  firstSome (lines.map (fun line =>
    tryNumbersAsDate ((numTokens line).map (fun t => natOfDigits t.data))))

/-- extract_report_date: the keyword-filtered range and single-date scan,
then the numeric fallback over all lines, then the current date. -/
def extractReportDate (lines : List String) (today : PyDate) : String :=
  match findDatePhase12 lines with
  | some d => formatDMY d
  | none =>
    match findNumericDate lines with
    | some d => formatDMY d
    | none => formatDMY today

/-! ## Fuel lines -/

def fuelSkipKeywords : List String :=
  ["product", "volume", "amount", "ស្តង់", "បរិមាណ", "តម្លៃ",
   "summary", "total", "pump", "សរុប"]

/-- The five splitting methods of parse_fuel_line, in order: tab split,
multi-space split, the two-number regex, the one-number regex, and the
naive whitespace split. -/
def fuelLineParts (line : String) : List String :=
  let parts : List String :=
    if strContains line "\t" then ((line.splitOn "\t").map pyStrip).filter (fun p => p ≠ "")
    else if strContains line "  " then ((splitWs2 line).map pyStrip).filter (fun p => p ≠ "")
    else []
  let parts :=
    if parts.isEmpty || parts.length < 2 then
      match reSearch fuelLineRE3 line.data with
      | some (_, _, g) =>
        [pyStrip (String.mk (groupGet g 1)), String.mk (groupGet g 2), String.mk (groupGet g 3)]
      | none => parts
    else parts
  let parts :=
    if parts.isEmpty || parts.length < 2 then
      match reSearch fuelLineRE4 line.data with
      | some (_, _, g) => [pyStrip (String.mk (groupGet g 1)), String.mk (groupGet g 2)]
      | none => parts
    else parts
  if parts.isEmpty || parts.length < 2 then splitWsTokens line else parts

/-- Building the fuel dict from the split parts: clean both numbers
(either failing float() rejects the line), reject a non-positive volume,
and attach the unit price. -/
def mkFuelEntry (parts : List String) : Option FuelItem :=
  if parts.length ≥ 2 then
    match cleanNumber (parts.getD 1 ""),
        (if parts.length ≥ 3 then cleanNumber (parts.getD 2 "") else some 0) with
    | some volume, some amount =>
      if volume ≤ 0 then none
      else some { fuel_type := pyStrip (parts.getD 0 ""), volume := volume, amount := amount,
                  unit_price := some (if volume > 0 then amount / volume else 0) }
    | _, _ => none
  else none

/-- parse_fuel_line. -/
def parseFuelLine (line : String) : Option FuelItem :=
  if pyStrip line = "" then none
  else if fuelSkipKeywords.any (fun k => strContains (pyLower line) k) then none
  else mkFuelEntry (fuelLineParts line)

/-! ## Pump sections -/

/-- Close the current pump, keeping it only when it has fuels. -/
def flushPump (cur : Option Pump) (acc : List Pump) : List Pump :=
  match cur with
  | some p => if p.fuels.isEmpty then acc else acc ++ [p]
  | none => acc

/-- The scanning loop of parse_pump_data over the lines from the first
pump marker; rel is the offset from that marker. -/
def pumpLoop : List String → Nat → Option Pump → List Pump → List Pump
  | [], _, cur, acc => flushPump cur acc
  | line :: rest, rel, cur, acc =>
    let l := pyStrip line
    if pyLower l = "summary" && rel > 2 then flushPump cur acc
    else
      match reSearch pumpRE l.data with
      | some (_, _, g) =>
        pumpLoop rest (rel + 1) (some ⟨String.mk (groupGet g 1), []⟩) (flushPump cur acc)
      | none =>
        match cur with
        | some p =>
          match parseFuelLine l with
          | some f => pumpLoop rest (rel + 1) (some ⟨p.pump_number, p.fuels ++ [f]⟩) acc
          | none => pumpLoop rest (rel + 1) (some p) acc
        | none => pumpLoop rest (rel + 1) none acc

/-- parse_pump_data. -/
def parsePumpData (lines : List String) : List Pump :=
  match lines.findIdx? (fun l => (reSearch pumpRE l.data).isSome) with
  | none => []
  | some idx => pumpLoop (lines.drop idx) 0 none []

/-! ## Summary section -/

def summaryHeaderKeywords : List String :=
  ["product", "volume", "amount", "ស្តង់", "បរិមាណ", "តម្លៃ"]

def summaryStopKeywords : List String :=
  ["total sale", "total sales", "total", "សរុប", "pump", "ស្តង់"]

/-- The header scan after the Summary line: the first of the next nine
lines containing a header keyword, else the Summary line itself. -/
def summaryHeaderLine (lines : List String) (sStart : Nat) : Nat :=
  match ((List.range lines.length).filter
      (fun j => sStart + 1 ≤ j && j < min (sStart + 10) lines.length)).find?
      (fun j => summaryHeaderKeywords.any (fun k => strContains (pyLower (lines.getD j "")) k)) with
  | some j => j
  | none => sStart

/-- The collection loop of parse_summary_data from one index on. -/
def summaryLoopGo (lines : List String) (hLine sStart : Nat) :
    Nat → Nat → List FuelItem → List FuelItem
  | 0, _, acc => acc
  | fuel + 1, i, acc =>
    if lines.length ≤ i then acc
    else
      let line := pyStrip (lines.getD i "")
      if line = "" then summaryLoopGo lines hLine sStart fuel (i + 1) acc
      else if (summaryStopKeywords.any (fun k => strContains (pyLower line) k)) && i > hLine + 1 then acc
      else if i - sStart > 30 then acc
      else
        match parseFuelLine line with
        | some f => summaryLoopGo lines hLine sStart fuel (i + 1) (acc ++ [f])
        | none => acc

/-- parse_summary_data. -/
def parseSummaryData (lines : List String) : List FuelItem :=
  match (List.range lines.length).find? (fun i =>
      let l := pyLower (pyStrip (lines.getD i ""))
      l = "summary" || l = "សរុប" || l = "សេចក្តីសង្ខេប") with
  | none => []
  | some sStart =>
    let hLine := summaryHeaderLine lines sStart
    summaryLoopGo lines hLine sStart (lines.length + 1) (hLine + 1) []

/-! ## Aggregation of fuel data -/

/-- One step of the insertion-ordered dict accumulation of
extract_fuel_data_from_lines: update the entry of this fuel type in
place, or append a fresh one.  The accumulator models the Python dict as
an association list whose keys are unique (they are, starting from the
empty dict), with insertion order preserved. -/
def addLineTotals : List (String × Rat × Rat) → FuelItem → List (String × Rat × Rat)
  | [], f => [(f.fuel_type, f.volume, f.amount)]
  | e :: rest, f =>
    if e.1 = f.fuel_type then (e.1, e.2.1 + f.volume, e.2.2 + f.amount) :: rest
    else e :: addLineTotals rest f

/-- extract_fuel_data_from_lines. -/
def extractFuelDataFromLines (lines : List String) : List FuelItem :=
  ((lines.filterMap parseFuelLine).foldl addLineTotals []).map
    (fun e => { fuel_type := e.1, volume := e.2.1, amount := e.2.2 })

/-- One step of the dict accumulation of extract_fuel_data_from_pumps,
which additionally counts contributing entries; same dict-as-unique-key
association-list model as addLineTotals. -/
def addPumpTotals : List (String × Rat × Rat × Nat) → FuelItem →
    List (String × Rat × Rat × Nat)
  | [], f => [(f.fuel_type, f.volume, f.amount, 1)]
  | e :: rest, f =>
    if e.1 = f.fuel_type then (e.1, e.2.1 + f.volume, e.2.2.1 + f.amount, e.2.2.2 + 1) :: rest
    else e :: addPumpTotals rest f

/-- extract_fuel_data_from_pumps. -/
def extractFuelDataFromPumps (pumps : List Pump) : List FuelItem :=
  if pumps.isEmpty then []
  else
    (((pumps.map Pump.fuels).flatten).foldl addPumpTotals []).map
      (fun e => { fuel_type := e.1, volume := e.2.1, amount := e.2.2.1,
                  pump_count := some e.2.2.2 })

/-! ## Totals -/

def totalKeywords : List String :=
  ["total sale", "total sales", "total", "សរុប", "grand total"]

/-- The line loop of extract_total_sales, threading the partially
mutated totals dict (a successful volume parse followed by a failed
amount parse leaves the volume assigned, as in the source). -/
def extractTotalSalesGo : List String → Totals → Totals
  | [], t => t
  | line :: rest, t =>
    if totalKeywords.any (fun k => strContains (pyLower line) k) then
      let nums := numbersIn line
      if nums.length ≥ 2 then
        match parsePyFloat (dropCommas (nums.getD 0 "")) with
        | none => extractTotalSalesGo rest t
        | some v =>
          match parsePyFloat (dropCommas (nums.getD 1 "")) with
          | none => extractTotalSalesGo rest { t with volume := v }
          | some a => { volume := v, amount := a }
      else
        let parts := splitTabsWs2 (pyStrip line)
        if parts.length ≥ 3 then
          match parsePyFloat (dropCommas (parts.getD 1 "")) with
          | none => extractTotalSalesGo rest t
          | some v =>
            match parsePyFloat (dropCommas (currencySub (parts.getD 2 ""))) with
            | none => extractTotalSalesGo rest { t with volume := v }
            | some a => { volume := v, amount := a }
        else extractTotalSalesGo rest t
    else extractTotalSalesGo rest t

/-- extract_total_sales. -/
def extractTotalSales (lines : List String) : Totals :=
  extractTotalSalesGo lines ⟨0, 0⟩

/-- calculate_totals_from_fuel_data. -/
def calculateTotals (fuel : List FuelItem) : Totals :=
  { volume := (fuel.map FuelItem.volume).sum, amount := (fuel.map FuelItem.amount).sum }

/-- The volume percentage difference computed by
verify_totals_consistency. -/
def volumeDiffPct (fuel : List FuelItem) (extracted : Totals) : Rat :=
  |(calculateTotals fuel).volume - extracted.volume| / extracted.volume * 100

/-- The amount percentage difference computed by
verify_totals_consistency (pinned to 100 when the extracted amount is
not positive). -/
def amountDiffPct (fuel : List FuelItem) (extracted : Totals) : Rat :=
  if extracted.amount > 0 then
    |(calculateTotals fuel).amount - extracted.amount| / extracted.amount * 100
  else 100

/-- verify_totals_consistency, returning the possibly overridden totals:
above 1 percent difference (volume or amount) a mismatch is logged, and
above 5 percent the calculated totals replace the extracted ones. -/
def verifyTotalsConsistency (fuel : List FuelItem) (extracted : Totals) : Totals :=
  if fuel.isEmpty then extracted
  else
    let calcT := calculateTotals fuel
    if extracted.volume > 0 && calcT.volume > 0 then
      let vdp := volumeDiffPct fuel extracted
      let adp := amountDiffPct fuel extracted
      if vdp > 1 || adp > 1 then
        (if vdp > 5 || adp > 5 then calcT else extracted)
      else extracted
    else extracted

/-- Step 8 of parse_daily_report: totals are taken from the fuel data
when no total was extracted, and reconciled against the extracted total
otherwise. -/
def reconcileTotals (fuel : List FuelItem) (t0 : Totals) : Totals :=
  if t0.volume = 0 && !fuel.isEmpty then calculateTotals fuel
  else if t0.volume > 0 && !fuel.isEmpty then verifyTotalsConsistency fuel t0
  else t0

/-! ## Fuel-type mapping -/

/-- Python dict lookup in the fuel-mapping table. -/
def lookupMapping (k : String) : Option String :=
  (defaultFuelMappings.find? (fun p => p.1 = k)).map (fun p => p.2)

/-- The bidirectional-containment pass of map_fuel_types_to_standard,
preferring the longest matching key (strictly longer wins, first entry
wins ties, lengths counted in characters as Python len does). -/
def bestContainsMatch (fuelType : String) : Option String :=
  (defaultFuelMappings.foldl
    (fun (best : Option String × Nat) p =>
      let keyL := pyLower p.1
      let ftL := pyLower fuelType
      if strContains ftL keyL || strContains keyL ftL then
        let matchLen := if strContains ftL keyL then p.1.length else fuelType.length
        if matchLen > best.2 then (some p.2, matchLen) else best
      else best)
    (none, 0)).1

/-- The full mapping cascade for one (already stripped) label: exact
lookup, lowercase lookup, containment, keyword inference, and finally
the unit-cleaned original label. -/
def mapOneFuelType (ft : String) : String :=
  match lookupMapping ft with
  | some m => m
  | none =>
    match lookupMapping (pyLower ft) with
    | some m => m
    | none =>
      match bestContainsMatch ft with
      | some m => m
      | none =>
        let ftL := pyLower ft
        if ["diesel", "do", "ម៉ាស៊ូត"].any (fun w => strContains ftL w) then
          "ប្រេងម៉ាស៊ូត DO - T1"
        else if ["regular", "ea92", "សាំង", "gasoline"].any (fun w => strContains ftL w) then
          "សាំង EA92 - T2"
        else if ["super", "ea95", "premium", "ស៊ុប"].any (fun w => strContains ftL w) then
          "សាំងស៊ុបពែរ EA95 -T3"
        else pyStrip (reSubEmpty fuelCleanRE ft)

/-- One item of map_fuel_types_to_standard: the mapped type, the
stripped original label, and every other entry of the dict carried
over (original_fuel_type is freshly assigned, so an incoming value of
that key is not kept). -/
def mapOneFuelItem (item : FuelItem) : FuelItem :=
  let ft := pyStrip item.fuel_type
  { fuel_type := mapOneFuelType ft, original_fuel_type := some ft,
    volume := item.volume, amount := item.amount,
    unit_price := item.unit_price, pump_count := item.pump_count }

/-- map_fuel_types_to_standard. -/
def mapFuelTypesToStandard (fuel : List FuelItem) : List FuelItem :=
  fuel.map mapOneFuelItem

/-! ## Validation -/

/-- Decimal rendering with a fixed number of fraction digits, used only
inside warning strings (the source formats binary floats here; the exact
rounding of the last digit is abstracted by truncation). -/
def fmtRatFixed (q : Rat) (prec : Nat) : String :=
  let neg := q < 0
  let scaled := (|q| * ((10 : Rat) ^ prec)).floor.toNat
  let ip := scaled / 10 ^ prec
  let fp := scaled % 10 ^ prec
  let fpStr := toString fp
  let fpPad := String.mk (List.replicate (prec - fpStr.length) '0') ++ fpStr
  (if neg then "-" else "") ++ toString ip ++ (if prec = 0 then "" else "." ++ fpPad)

/-- Check 2 of validate_parsed_data: the station name; returns the
passes it contributes and the warnings it appends. -/
def checkStation (r : ParseResult) : Nat × List String :=
  if r.station_name = "" || r.station_name = "UNKNOWN" then
    (0, ["Station name is missing or default"])
  else (1, [])

/-- Check 3: the report date must strptime as d/m/y. -/
def checkDateFormat (r : ParseResult) : Nat × List String :=
  if (strptimeDMY2 r.report_date.data).isSome then (1, [])
  else (0, ["Invalid date format: " ++ r.report_date])

/-- Checks 4 and 4b: fuel data present, and no negative values in it;
returns (passes of check 4, extra checks counted, passes of the
negative-value check, warnings).  Empty fuel data only warns. -/
def checkFuelData (r : ParseResult) : Nat × Nat × Nat × List String :=
  if r.fuel_data.isEmpty then (0, 0, 0, ["No fuel data parsed"])
  else
    if r.fuel_data.any (fun f => f.volume < 0 || f.amount < 0) then
      (1, 1, 0, ["Negative values found in fuel data"])
    else (1, 1, 1, [])

/-- Check 5: totals consistency, within 5 percent, trivially passing
whenever no positive totals exist. -/
def checkTotals (r : ParseResult) : Nat × List String :=
  if r.total_sales.volume > 0 && !r.fuel_data.isEmpty then
    let fuelTotal := (r.fuel_data.map FuelItem.volume).sum
    if fuelTotal > 0 then
      let diffPct := |fuelTotal - r.total_sales.volume| / r.total_sales.volume * 100
      if diffPct ≤ 5 then (1, [])
      else (0, ["Volume mismatch: fuel total=" ++ fmtRatFixed fuelTotal 2 ++
        ", reported=" ++ fmtRatFixed r.total_sales.volume 2 ++
        " (" ++ fmtRatFixed diffPct 1 ++ "% diff)"])
    else (1, [])
  else (1, [])

/-- validate_parsed_data.  The three required keys of check 1 are fields
of the result structure, hence always present on anything the parser
returns, so that check contributes three passes; no other check of the
source ever appends to the error list or clears is_valid, and the
exception branch is unreachable in this embedding, so is_valid stays
true. -/
def validateParsedData (r : ParseResult) : Validation :=
  let c2 := checkStation r
  let c3 := checkDateFormat r
  let c4 := checkFuelData r
  let c5 := checkTotals r
  let checksTotal := 3 + 1 + 1 + 1 + c4.2.1 + 1
  let checksPassed := 3 + c2.1 + c3.1 + c4.1 + c4.2.2.1 + c5.1
  { is_valid := true, errors := [],
    warnings := c2.2 ++ c3.2 ++ c4.2.2.2 ++ c5.2,
    checks_passed := checksPassed, checks_total := checksTotal,
    score := (checksPassed : Rat) / (checksTotal : Rat) * 100 }

/-! ## The top-level parse -/

/-- The _create_error_result dict (with the timestamp left for the
caller to attach). -/
def emptyErrorResult (today : PyDate) : ParseResult :=
  { station_name := "UNKNOWN", report_date := formatDMY today, pump_data := [],
    summary_data := [], fuel_data := [], total_sales := ⟨0, 0⟩,
    metadata :=
      { parsed_at := "", lines_processed := none, has_summary := none,
        has_pump_data := none, validation := none, error := some "Empty report text",
        is_valid_flag := some false } }

/-- Steps 1 to 8 of parse_daily_report on a non-empty line list: the
result dict as it stands just before validation is attached. -/
def preValidationResult (lines : List String) (today : PyDate) : ParseResult :=
  let station := extractStationName (lines.getD 0 "")
  let rdate := extractReportDate lines today
  let summary := parseSummaryData lines
  let pumps := parsePumpData lines
  let fuel0 :=
    if !summary.isEmpty then summary
    else if !pumps.isEmpty then extractFuelDataFromPumps pumps
    else extractFuelDataFromLines lines
  let totals0 := extractTotalSales lines
  let fuel := if !fuel0.isEmpty then mapFuelTypesToStandard fuel0 else fuel0
  let totals := reconcileTotals fuel totals0
  { station_name := station, report_date := rdate, pump_data := pumps,
    summary_data := summary, fuel_data := fuel, total_sales := totals,
    metadata :=
      { parsed_at := "", lines_processed := some lines.length,
        has_summary := some (!summary.isEmpty), has_pump_data := some (!pumps.isEmpty),
        validation := none, error := none, is_valid_flag := none } }

/-- The clock-date-dependent part of parse_daily_report (everything but
the isoformat timestamp, which the caller attaches): the empty-input
error result, or the full pipeline in source order with the validation
block attached in step 9.  All exceptions of the source are handled
locally by the components above, so the outer catch-all that would
produce an error result mid-parse is unreachable. -/
def parseCore (text : String) (today : PyDate) : ParseResult :=
  let lines := pyLines text
  if lines.isEmpty then emptyErrorResult today
  else
    let r0 := preValidationResult lines today
    { r0 with metadata := { r0.metadata with validation := some (validateParsedData r0) } }

/-- parse_daily_report on the default ReportParser configuration, with
the reading of datetime.now passed in explicitly. -/
def parseDailyReport (text : String) (now : NowClock) : ParseResult :=
  let r := parseCore text now.today
  { r with metadata := { r.metadata with parsed_at := now.iso } }

/-! ## Derived observations used by the theorems -/

/-- A parse result with its timestamp field blanked. -/
def stripParsedAt (r : ParseResult) : ParseResult :=
  { r with metadata := { r.metadata with parsed_at := "" } }

/-- The warnings carried by a parse result (inside its validation
block; the error result carries none). -/
def resultWarnings (r : ParseResult) : List String :=
  match r.metadata.validation with
  | some v => v.warnings
  | none => []

/-- The warnings the validator can emit: the five fixed messages (two of
them carrying formatted data).  No date-fallback warning is among
them. -/
def isValidatorWarning (w : String) : Prop :=
  w = "Station name is missing or default" ∨
  (∃ s, w = "Invalid date format: " ++ s) ∨
  w = "No fuel data parsed" ∨
  w = "Negative values found in fuel data" ∨
  (∃ s, w = "Volume mismatch: fuel total=" ++ s)

/-- The numeric-fallback candidate stated independently of the source:
range-check day, month and a year above 100, add 1900 to a three-digit
year, and build a calendar-checked date. -/
def specDateCand (day month year : Nat) : Option PyDate :=
  if 1 ≤ day ∧ day ≤ 31 ∧ 1 ≤ month ∧ month ≤ 12 ∧ 100 < year then
    mkValidDate day month (if year < 1000 then year + 1900 else year)
  else none

/-- Volume of all entries of a fuel list that carry the given type. -/
def sumVolFor (l : List FuelItem) (k : String) : Rat :=
  ((l.filter (fun f => f.fuel_type = k)).map FuelItem.volume).sum

/-- Amount of all entries of a fuel list that carry the given type. -/
def sumAmtFor (l : List FuelItem) (k : String) : Rat :=
  ((l.filter (fun f => f.fuel_type = k)).map FuelItem.amount).sum

/-- Number of entries of a fuel list that carry the given type. -/
def countFor (l : List FuelItem) (k : String) : Nat :=
  (l.filter (fun f => f.fuel_type = k)).length

/-- All fuel entries of a pump list in iteration order. -/
def fuelsOf (pumps : List Pump) : List FuelItem :=
  (pumps.map Pump.fuels).flatten

/-! ## Helper lemmas: every extracted date is calendar-valid -/

theorem mkValidDate_valid {a b c : Nat} {d : PyDate} (h : mkValidDate a b c = some d) :
    validDate d = true := by
  unfold mkValidDate at h
  split at h
  · cases h
    assumption
  · cases h

theorem firstSome_prop {α : Type} {P : α → Prop} :
    ∀ {l : List (Option α)} {b : α}, (∀ o ∈ l, ∀ a, o = some a → P a) →
      firstSome l = some b → P b := by
  intro l
  induction l with
  | nil => intro b _ h; cases h
  | cons o rest ih =>
    intro b hall h
    cases o with
    | some a =>
      have : some a = some b := h
      cases this
      exact hall (some b) (List.mem_cons_self _ _) b rfl
    | none =>
      exact ih (fun o ho a ha => hall o (List.mem_cons_of_mem _ ho) a ha) h

theorem convNumDMY_valid {ym : List Char → Nat} {g : List (Nat × List Char)} {d : PyDate}
    (h : convNumDMY ym g = some d) : validDate d = true := by
  unfold convNumDMY at h
  exact mkValidDate_valid h

theorem convNameDMY_valid {ym : List Char → Nat} {g : List (Nat × List Char)} {d : PyDate}
    (h : convNameDMY ym g = some d) : validDate d = true := by
  unfold convNameDMY at h
  split at h
  · exact mkValidDate_valid h
  · cases h

theorem convYMD_valid {g : List (Nat × List Char)} {d : PyDate}
    (h : convYMD g = some d) : validDate d = true := by
  unfold convYMD at h
  exact mkValidDate_valid h

theorem runDateFormat_valid {r : RE} {conv : List (Nat × List Char) → Option PyDate}
    {cs : List Char} {d : PyDate}
    (hconv : ∀ g d, conv g = some d → validDate d = true)
    (h : runDateFormat r conv cs = some d) : validDate d = true := by
  unfold runDateFormat at h
  split at h
  · exact hconv _ _ h
  · cases h

theorem dateFormatRunners_valid :
    ∀ f ∈ dateFormatRunners, ∀ cs d, f cs = some d → validDate d = true := by
  intro f hf
  simp only [dateFormatRunners, List.mem_cons, List.not_mem_nil, or_false] at hf
  rcases hf with rfl | rfl | rfl | rfl | rfl | rfl | rfl | rfl
  · exact fun cs d h => runDateFormat_valid (fun g d h => convNameDMY_valid h) h
  · exact fun cs d h => runDateFormat_valid (fun g d h => convNameDMY_valid h) h
  · exact fun cs d h => runDateFormat_valid (fun g d h => convNumDMY_valid h) h
  · exact fun cs d h => runDateFormat_valid (fun g d h => convNumDMY_valid h)
      (by unfold strptimeDMY2 at h; exact h)
  · exact fun cs d h => runDateFormat_valid (fun g d h => convYMD_valid h) h
  · exact fun cs d h => runDateFormat_valid (fun g d h => convNumDMY_valid h) h
  · exact fun cs d h => runDateFormat_valid (fun g d h => convNameDMY_valid h) h
  · exact fun cs d h => runDateFormat_valid (fun g d h => convNameDMY_valid h) h

theorem parseDateString_valid {s : String} {d : PyDate}
    (h : parseDateString s = some d) : validDate d = true := by
  unfold parseDateString at h
  refine @firstSome_prop PyDate (fun x => validDate x = true) _ _ ?_ h
  intro o ho a ha
  rw [List.mem_map] at ho
  obtain ⟨f, hf, rfl⟩ := ho
  exact dateFormatRunners_valid f hf _ _ ha

theorem findDateInLine_valid {line : String} {d : PyDate}
    (h : findDateInLine line = some d) : validDate d = true := by
  unfold findDateInLine at h
  split at h
  · cases h
  · split at h
    · exact parseDateString_valid h
    · refine @firstSome_prop PyDate (fun x => validDate x = true) _ _ ?_ h
      intro o ho a ha
      rw [List.mem_map] at ho
      obtain ⟨p, hp, rfl⟩ := ho
      revert ha
      split
      · intro ha; cases ha
      · intro ha; exact parseDateString_valid ha

theorem findDatePhase12_valid {lines : List String} {d : PyDate}
    (h : findDatePhase12 lines = some d) : validDate d = true := by
  unfold findDatePhase12 at h
  refine @firstSome_prop PyDate (fun x => validDate x = true) _ _ ?_ h
  intro o ho a ha
  rw [List.mem_map] at ho
  obtain ⟨line, _, rfl⟩ := ho
  exact findDateInLine_valid ha

theorem foldl_dateMax_mem (l : List PyDate) (a : PyDate) :
    l.foldl (fun acc x => if dateKey acc < dateKey x then x else acc) a = a ∨
      l.foldl (fun acc x => if dateKey acc < dateKey x then x else acc) a ∈ l := by
  induction l generalizing a with
  | nil => exact Or.inl rfl
  | cons x rest ih =>
    simp only [List.foldl_cons]
    rcases ih (if dateKey a < dateKey x then x else a) with h | h
    · rw [h]
      split
      · exact Or.inr (List.mem_cons_self _ _)
      · exact Or.inl rfl
    · exact Or.inr (List.mem_cons_of_mem _ h)

theorem maxDateList_mem {l : List PyDate} {d : PyDate}
    (h : maxDateList l = some d) : d ∈ l := by
  cases l with
  | nil => cases h
  | cons x rest =>
    unfold maxDateList at h
    cases h
    rcases foldl_dateMax_mem rest x with h | h
    · rw [h]; exact List.mem_cons_self _ _
    · exact List.mem_cons_of_mem _ h

theorem foldl_dateMax_ge (l : List PyDate) (a : PyDate) :
    dateKey a ≤ dateKey (l.foldl (fun acc x => if dateKey acc < dateKey x then x else acc) a) ∧
      ∀ x ∈ l, dateKey x ≤
        dateKey (l.foldl (fun acc x => if dateKey acc < dateKey x then x else acc) a) := by
  induction l generalizing a with
  | nil => exact ⟨le_refl _, by intro x hx; cases hx⟩
  | cons y rest ih =>
    simp only [List.foldl_cons]
    obtain ⟨h1, h2⟩ := ih (if dateKey a < dateKey y then y else a)
    constructor
    · refine le_trans ?_ h1
      split <;> omega
    · intro x hx
      rcases List.mem_cons.mp hx with rfl | hx
      · refine le_trans ?_ h1
        split <;> omega
      · exact h2 x hx

theorem maxDateList_isMax {l : List PyDate} {d : PyDate}
    (h : maxDateList l = some d) : ∀ x ∈ l, dateKey x ≤ dateKey d := by
  cases l with
  | nil => cases h
  | cons y rest =>
    unfold maxDateList at h
    cases h
    intro x hx
    obtain ⟨h1, h2⟩ := foldl_dateMax_ge rest y
    rcases List.mem_cons.mp hx with rfl | hx
    · exact h1
    · exact h2 x hx

theorem numbersCandidate_valid {a b c : Nat} {d : PyDate}
    (h : numbersCandidate a b c = some d) : validDate d = true := by
  unfold numbersCandidate at h
  split at h
  · exact mkValidDate_valid h
  · cases h

theorem tryNumbersAsDate_valid {ns : List Nat} {d : PyDate}
    (h : tryNumbersAsDate ns = some d) : validDate d = true := by
  unfold tryNumbersAsDate at h
  split at h
  · have hm := maxDateList_mem h
    rw [List.mem_filterMap] at hm
    obtain ⟨o, ho, hid⟩ := hm
    simp only [id] at hid
    subst hid
    simp only [List.mem_cons, List.not_mem_nil, or_false] at ho
    rcases ho with h1 | h1 | h1
    · exact numbersCandidate_valid h1.symm
    · exact numbersCandidate_valid h1.symm
    · exact numbersCandidate_valid h1.symm
  · cases h

theorem findNumericDate_valid {lines : List String} {d : PyDate}
    (h : findNumericDate lines = some d) : validDate d = true := by
  unfold findNumericDate at h
  refine @firstSome_prop PyDate (fun x => validDate x = true) _ _ ?_ h
  intro o ho a ha
  rw [List.mem_map] at ho
  obtain ⟨line, _, rfl⟩ := ho
  exact tryNumbersAsDate_valid ha

/-! ## Helper lemmas: the canonical output shape -/

theorem isDigit_char_ofNat {m : Nat} (h : m < 10) : (Char.ofNat (48 + m)).isDigit = true := by
  interval_cases m <;> decide

theorem twoDigit_digits (n : Nat) :
    (Char.ofNat (48 + n / 10 % 10)).isDigit = true ∧ (Char.ofNat (48 + n % 10)).isDigit = true :=
  ⟨isDigit_char_ofNat (Nat.mod_lt _ (by norm_num)),
   isDigit_char_ofNat (Nat.mod_lt _ (by norm_num))⟩

theorem isCanonicalDMY_formatDMY (d : PyDate) : isCanonicalDMY (formatDMY d) = true := by
  show isCanonicalDMY
    (String.mk (twoDigit d.day ++ '/' :: twoDigit d.month ++ '/' :: twoDigit (d.year % 100))) = true
  simp only [twoDigit, List.cons_append, List.nil_append, isCanonicalDMY]
  simp [(twoDigit_digits d.day).1, (twoDigit_digits d.day).2,
    (twoDigit_digits d.month).1, (twoDigit_digits d.month).2,
    (twoDigit_digits (d.year % 100)).1, (twoDigit_digits (d.year % 100)).2]

/-! ## Claim C1 -/

/-- Claim C1, counterexample to the claim as stated: on an input whose
lines are all empty after stripping, parse_daily_report does return the
error result, but that result carries no validation block at all, so
its validation score is not 0 (there is no score; the claimed
validation_score = 0 field does not exist on the error result). -/
theorem C1_counterexample :
    (parseDailyReport " \n\t \n " ⟨⟨27, 12, 2025⟩, "2025-12-27T08:00:00"⟩).metadata.validation
        = none ∧
    ((parseDailyReport " \n\t \n " ⟨⟨27, 12, 2025⟩, "2025-12-27T08:00:00"⟩).metadata.validation.map
        Validation.score) ≠ some 0 := by
  constructor
  · with_unfolding_all rfl
  · intro hc
    have h : (parseDailyReport " \n\t \n " ⟨⟨27, 12, 2025⟩, "2025-12-27T08:00:00"⟩).metadata.validation
        = none := by with_unfolding_all rfl
    rw [h] at hc
    cases hc

/-- Claim C1, amended: parse_daily_report is total by construction, and
on any input whose lines are all empty after stripping it returns the
_create_error_result dict: station UNKNOWN, the current date, empty
data, metadata carrying the error message and is_valid false, and no
validation block (hence no validation score at all). -/
theorem C1_empty_input_error (text : String) (now : NowClock) (h : pyLines text = []) :
    parseDailyReport text now =
      { station_name := "UNKNOWN", report_date := formatDMY now.today, pump_data := [],
        summary_data := [], fuel_data := [], total_sales := ⟨0, 0⟩,
        metadata :=
          { parsed_at := now.iso, lines_processed := none, has_summary := none,
            has_pump_data := none, validation := none, error := some "Empty report text",
            is_valid_flag := some false } } := by
  simp [parseDailyReport, parseCore, emptyErrorResult, h]

/-- Claim C1, witness for the amended theorem at a concrete whitespace
input. -/
theorem C1_witness :
    parseDailyReport "\n  \n" ⟨⟨1, 1, 2026⟩, "2026-01-01T00:00:00"⟩ =
      { station_name := "UNKNOWN", report_date := formatDMY ⟨1, 1, 2026⟩, pump_data := [],
        summary_data := [], fuel_data := [], total_sales := ⟨0, 0⟩,
        metadata :=
          { parsed_at := "2026-01-01T00:00:00", lines_processed := none, has_summary := none,
            has_pump_data := none, validation := none, error := some "Empty report text",
            is_valid_flag := some false } } :=
  C1_empty_input_error "\n  \n" ⟨⟨1, 1, 2026⟩, "2026-01-01T00:00:00"⟩ (by with_unfolding_all rfl)

/-! ## Claim C2 -/

/-- Claim C2, counterexample to the claim as stated: a line whose volume
token reads -5 does not produce an absent entry; clean_number strips the
minus sign, the volume parses to +5, and parse_fuel_line returns the
entry. -/
theorem C2_counterexample :
    parseFuelLine "Diesel\t-5\t-4.5" =
      some { fuel_type := "Diesel", volume := 5, amount := 9 / 2,
             unit_price := some (9 / 10) } := by
  with_unfolding_all rfl

/-- Claim C2, amended: whenever the parsed (cleaned) volume is less than
or equal to zero the line is rejected, so every entry parse_fuel_line
returns has strictly positive volume; a minus sign in the volume token
never survives clean_number, so a token reading -5 yields volume 5 and
the entry is kept. -/
theorem C2_returned_volume_positive (line : String) (e : FuelItem)
    (h : parseFuelLine line = some e) : 0 < e.volume := by
  unfold parseFuelLine at h
  split at h
  · cases h
  · split at h
    · cases h
    · unfold mkFuelEntry at h
      split at h
      · split at h
        · rename_i volume amount heq
          split at h
          · cases h
          · rename_i hvol
            cases h
            simpa using lt_of_not_le hvol
        · cases h
      · cases h

/-- Claim C2, witness for the amended theorem at a concrete fuel
line. -/
theorem C2_witness : (0 : Rat) <
    ({ fuel_type := "Diesel", volume := 10, amount := 9, unit_price := some (9 / 10) }
      : FuelItem).volume :=
  C2_returned_volume_positive "Diesel\t10\t9" _ (by with_unfolding_all rfl)

/-! ## Claim C9 -/

/-- Claim C9, counterexample to the claim as stated: two invocations of
parse_daily_report on the same text at two different instants of the
same day differ in the metadata parsed_at timestamp, so the outputs are
not byte-identical. -/
theorem C9_counterexample :
    parseDailyReport "Diesel 100.5 90.45" ⟨⟨27, 12, 2025⟩, "2025-12-27T08:00:00.000001"⟩ ≠
      parseDailyReport "Diesel 100.5 90.45" ⟨⟨27, 12, 2025⟩, "2025-12-27T08:00:00.000002"⟩ := by
  intro hc
  have h := congrArg (fun r => r.metadata.parsed_at) hc
  simp only [parseDailyReport] at h
  exact absurd h (by decide)

/-- Claim C9, amended: the parse is a deterministic function of the
input text and the clock reading; two invocations at instants sharing a
calendar date agree on everything except the parsed_at timestamp. -/
theorem C9_deterministic_modulo_timestamp (text : String) (d : PyDate) (iso1 iso2 : String) :
    stripParsedAt (parseDailyReport text ⟨d, iso1⟩) =
      stripParsedAt (parseDailyReport text ⟨d, iso2⟩) := by
  rfl

/-- Claim C9, witness: the amended theorem applied at a concrete text
and two concrete timestamps. -/
theorem C9_witness :
    stripParsedAt (parseDailyReport "Diesel 5 4" ⟨⟨1, 1, 2026⟩, "2026-01-01T09:00:00"⟩) =
      stripParsedAt (parseDailyReport "Diesel 5 4" ⟨⟨1, 1, 2026⟩, "2026-01-01T18:30:00"⟩) :=
  C9_deterministic_modulo_timestamp "Diesel 5 4" ⟨1, 1, 2026⟩ "2026-01-01T09:00:00"
    "2026-01-01T18:30:00"

/-! ## Claim C10 -/

/-- Claim C10, counterexample to the claim as stated: the raw label is
not preserved verbatim in original_fuel_type; the mapper strips it
first, so an input label with surrounding spaces comes back
stripped. -/
theorem C10_counterexample :
    (mapFuelTypesToStandard [{ fuel_type := " Diesel ", volume := 1, amount := 2 }]).map
        FuelItem.original_fuel_type = [some "Diesel"] ∧
    (" Diesel " : String) ≠ "Diesel" := by
  constructor
  · with_unfolding_all rfl
  · decide

/-- Claim C10, amended: map_fuel_types_to_standard returns a list of the
same length in the same order; volume, amount and the carried-over
unit_price and pump_count fields are unchanged; original_fuel_type is
set to the stripped raw label (overwriting any incoming value of that
field); only fuel_type is rewritten, through the mapping cascade applied
to the stripped label. -/
theorem C10_frame (items : List FuelItem) :
    (mapFuelTypesToStandard items).length = items.length ∧
    (mapFuelTypesToStandard items).map FuelItem.volume = items.map FuelItem.volume ∧
    (mapFuelTypesToStandard items).map FuelItem.amount = items.map FuelItem.amount ∧
    (mapFuelTypesToStandard items).map FuelItem.unit_price = items.map FuelItem.unit_price ∧
    (mapFuelTypesToStandard items).map FuelItem.pump_count = items.map FuelItem.pump_count ∧
    (mapFuelTypesToStandard items).map FuelItem.original_fuel_type
      = items.map (fun it => some (pyStrip it.fuel_type)) ∧
    (mapFuelTypesToStandard items).map FuelItem.fuel_type
      = items.map (fun it => mapOneFuelType (pyStrip it.fuel_type)) := by
  unfold mapFuelTypesToStandard
  refine ⟨List.length_map _ _, ?_, ?_, ?_, ?_, ?_, ?_⟩ <;>
    simp [List.map_map, Function.comp_def, mapOneFuelItem]

/-- Claim C10, witness: the amended theorem applied to a concrete
one-item list. -/
theorem C10_witness :
    (mapFuelTypesToStandard [{ fuel_type := "EA92", volume := 3, amount := 4 }]).map
        FuelItem.volume = [({ fuel_type := "EA92", volume := 3, amount := 4 } : FuelItem)].map
        FuelItem.volume :=
  (C10_frame [{ fuel_type := "EA92", volume := 3, amount := 4 }]).2.1

/-! ## Claim C3 -/

/-- Claim C3: every value extract_report_date returns is in the single
canonical dd/mm/yy shape (every return path formats a calendar-validated
date, or the current date, with strftime d/m/y), and on the line
27-Dec-2025 12:00 AM to 27-Dec-2025 11:59 PM the extractor returns
27/12/25, the start date of the range. -/
theorem C3_date_canonicalization (lines : List String) (today : PyDate)
    (_htoday : validDate today = true) :
    isCanonicalDMY (extractReportDate lines today) = true ∧
    extractReportDate ["27-Dec-2025 12:00 AM to 27-Dec-2025 11:59 PM"] today = "27/12/25" := by
  constructor
  · unfold extractReportDate
    split
    · exact isCanonicalDMY_formatDMY _
    · split
      · exact isCanonicalDMY_formatDMY _
      · exact isCanonicalDMY_formatDMY _
  · have h12 : findDatePhase12 ["27-Dec-2025 12:00 AM to 27-Dec-2025 11:59 PM"]
        = some ⟨27, 12, 2025⟩ := by with_unfolding_all rfl
    unfold extractReportDate
    rw [h12]
    with_unfolding_all rfl

/-- Claim C3, witness: the canonicalization theorem applied at a
concrete valid current date. -/
theorem C3_witness :
    validDate ⟨1, 10, 2026⟩ = true ∧
    (isCanonicalDMY (extractReportDate [] ⟨1, 10, 2026⟩) = true ∧
     extractReportDate ["27-Dec-2025 12:00 AM to 27-Dec-2025 11:59 PM"] ⟨1, 10, 2026⟩
       = "27/12/25") :=
  ⟨by decide, C3_date_canonicalization [] ⟨1, 10, 2026⟩ (by decide)⟩

/-! ## Claim C6 -/

theorem numbersCandidate_eq_spec (a b c : Nat) :
    numbersCandidate a b c = specDateCand a b c := by
  unfold numbersCandidate specDateCand
  simp only [Bool.and_eq_true, decide_eq_true_eq]
  by_cases h : (((1 ≤ a ∧ a ≤ 31) ∧ 1 ≤ b) ∧ b ≤ 12) ∧ c > 100
  · have hspec : 1 ≤ a ∧ a ≤ 31 ∧ 1 ≤ b ∧ b ≤ 12 ∧ 100 < c := by tauto
    rw [if_pos h, if_pos hspec]
    have h100 : 100 < c := h.2
    congr 1
    split_ifs <;> omega
  · have hspec : ¬(1 ≤ a ∧ a ≤ 31 ∧ 1 ≤ b ∧ b ≤ 12 ∧ 100 < c) := by tauto
    rw [if_neg h, if_neg hspec]

theorem specDateCand_twoDigit_none (d m y : Nat) (h : y ≤ 100) :
    specDateCand d m y = none := by
  unfold specDateCand
  have hc : ¬(1 ≤ d ∧ d ≤ 31 ∧ 1 ≤ m ∧ m ≤ 12 ∧ 100 < y) := by omega
  rw [if_neg hc]

/-- Claim C6, counterexample to the claim as stated: the line 2 1 2020
reaches the numeric fallback; under the claimed behaviour (permutations
ymd, dmy, ydm tried in order, first calendar-valid accepted) the dmy
reading 2/1/2020 would win, giving 02/01/20, but the code collects the
dmy, mdy and ymd readings and keeps the most recent, returning
01/02/20. -/
theorem C6_counterexample :
    extractReportDate ["2 1 2020"] ⟨1, 10, 2026⟩ = "01/02/20" ∧
    ("01/02/20" : String) ≠ "02/01/20" :=
  ⟨by with_unfolding_all rfl, by decide⟩

/-- Claim C6, amended: the numeric fallback reads the first three
numeric tokens as the permutations day-month-year (n0,n1,n2), (n1,n0,n2)
and (n2,n1,n0) — that is dmy, mdy and ymd, not ymd, dmy and ydm; every
calendar-valid candidate is collected and the LATEST date wins, not the
first; the year guard requires year above 100, so two-digit years are
rejected outright (the claimed +2000 normalization is the unreachable
branch), and three-digit years get 1900 added. -/
theorem C6_numeric_fallback (n0 n1 n2 : Nat) (rest : List Nat) :
    tryNumbersAsDate (n0 :: n1 :: n2 :: rest) =
      maxDateList ([specDateCand n0 n1 n2, specDateCand n1 n0 n2,
        specDateCand n2 n1 n0].filterMap id) ∧
    (∀ d m y, y ≤ 100 → specDateCand d m y = none) ∧
    (∀ d, tryNumbersAsDate (n0 :: n1 :: n2 :: rest) = some d →
      ∀ x ∈ ([specDateCand n0 n1 n2, specDateCand n1 n0 n2,
        specDateCand n2 n1 n0].filterMap id), dateKey x ≤ dateKey d) := by
  have main : tryNumbersAsDate (n0 :: n1 :: n2 :: rest) =
      maxDateList ([specDateCand n0 n1 n2, specDateCand n1 n0 n2,
        specDateCand n2 n1 n0].filterMap id) := by
    have hred : tryNumbersAsDate (n0 :: n1 :: n2 :: rest) =
        maxDateList ([numbersCandidate n0 n1 n2, numbersCandidate n1 n0 n2,
          numbersCandidate n2 n1 n0].filterMap id) := rfl
    rw [hred, numbersCandidate_eq_spec, numbersCandidate_eq_spec, numbersCandidate_eq_spec]
  refine ⟨main, fun d m y h => specDateCand_twoDigit_none d m y h, ?_⟩
  intro d hd x hx
  rw [main] at hd
  exact maxDateList_isMax hd x hx

/-- Claim C6, witness: the amended theorem applied to the numeric tokens
of the counterexample line. -/
theorem C6_witness :
    tryNumbersAsDate [2, 1, 2020] =
      maxDateList ([specDateCand 2 1 2020, specDateCand 1 2 2020,
        specDateCand 2020 1 2].filterMap id) :=
  (C6_numeric_fallback 2 1 2020 []).1

/-! ## Claim C4 -/

/-- Claim C4, counterexample to the claim as stated: with a calculated
total of 107 against an explicit total of 100 the percentage difference
is 7, which lies between the claimed tolerances of about 2 and about 10,
so the claim says the explicit total is kept; the code instead overrides
with the calculated total (its bands are 1 and 5 percent, and no warning
is placed in the result). -/
theorem C4_counterexample :
    volumeDiffPct [{ fuel_type := "Diesel", volume := 107, amount := 107 }] ⟨100, 100⟩ = 7 ∧
    verifyTotalsConsistency [{ fuel_type := "Diesel", volume := 107, amount := 107 }] ⟨100, 100⟩
      = ⟨107, 107⟩ ∧
    (⟨107, 107⟩ : Totals) ≠ ⟨100, 100⟩ := by
  refine ⟨by with_unfolding_all rfl, by with_unfolding_all rfl, fun hc => ?_⟩
  exact absurd (congrArg Totals.volume hc) (by with_unfolding_all decide)

/-- Claim C4, amended: when no explicit total was extracted (volume 0),
totals are the sums over fuel_data; when an explicit positive total and
a positive calculated total both exist, the explicit total is kept
unless the volume or the amount percentage difference exceeds the wide
tolerance, in which case the calculated total replaces it — but the
tolerances are 1 percent (tight, log only) and 5 percent (wide), not
about 2 and about 10, and the mismatch warnings go to the logger, never
into the result. -/
theorem verifyTotals_char (fuel : List FuelItem) (t0 : Totals)
    (hfe : fuel.isEmpty = false) (hpos : 0 < t0.volume)
    (hcpos : 0 < (calculateTotals fuel).volume) :
    verifyTotalsConsistency fuel t0 =
      if 5 < volumeDiffPct fuel t0 ∨ 5 < amountDiffPct fuel t0
      then calculateTotals fuel else t0 := by
  unfold verifyTotalsConsistency
  rw [if_neg (by simp [hfe]), if_pos (by simp [hpos, hcpos])]
  by_cases h5 : 5 < volumeDiffPct fuel t0 ∨ 5 < amountDiffPct fuel t0
  · have h1 : volumeDiffPct fuel t0 > 1 ∨ amountDiffPct fuel t0 > 1 := by
      rcases h5 with h | h
      · exact Or.inl (by linarith)
      · exact Or.inr (by linarith)
    rw [if_pos (by simpa using h1), if_pos (by simpa using h5), if_pos h5]
  · by_cases h1 : volumeDiffPct fuel t0 > 1 ∨ amountDiffPct fuel t0 > 1
    · rw [if_pos (by simpa using h1), if_neg (by simpa using h5), if_neg h5]
    · rw [if_neg (by simpa using h1), if_neg h5]

theorem C4_reconciliation (fuel : List FuelItem) (t0 : Totals) (hf : fuel ≠ []) :
    (t0.volume = 0 → reconcileTotals fuel t0 = calculateTotals fuel) ∧
    (0 < t0.volume → 0 < (calculateTotals fuel).volume →
      reconcileTotals fuel t0 =
        if 5 < volumeDiffPct fuel t0 ∨ 5 < amountDiffPct fuel t0
        then calculateTotals fuel else t0) := by
  have hfe : fuel.isEmpty = false := by
    cases fuel with
    | nil => exact absurd rfl hf
    | cons a l => rfl
  constructor
  · intro h0
    simp [reconcileTotals, h0, hfe]
  · intro hpos hcpos
    have hne : t0.volume ≠ 0 := ne_of_gt hpos
    unfold reconcileTotals
    rw [if_neg (by simp [hne, hfe]), if_pos (by simp [hpos, hfe])]
    exact verifyTotals_char fuel t0 hfe hpos hcpos

/-- Claim C4, witness: the amended theorem applied at a concrete fuel
list with no extracted total. -/
theorem C4_witness :
    reconcileTotals [{ fuel_type := "Diesel", volume := 50, amount := 40 }] ⟨0, 0⟩ =
      calculateTotals [{ fuel_type := "Diesel", volume := 50, amount := 40 }] :=
  (C4_reconciliation [{ fuel_type := "Diesel", volume := 50, amount := 40 }] ⟨0, 0⟩
    (by simp)).1 rfl

/-! ## Claim C5 -/

/-- A structurally complete parse result with no fuel data, as the
parser produces for inputs with no recognisable fuel lines. -/
def noFuelSample : ParseResult :=
  { station_name := "Station X", report_date := "27/12/25", pump_data := [], summary_data := [],
    fuel_data := [], total_sales := ⟨0, 0⟩,
    metadata :=
      { parsed_at := "", lines_processed := some 1, has_summary := some false,
        has_pump_data := some false, validation := none, error := none,
        is_valid_flag := none } }

/-- Claim C5, counterexample to the claim as stated: the validator run
on a result with empty fuel_data leaves is_valid true — the no-fuel-data
condition only appends a warning, it is not an error-class check. -/
theorem C5_counterexample :
    noFuelSample.fuel_data = [] ∧ (validateParsedData noFuelSample).is_valid = true :=
  ⟨rfl, rfl⟩

/-- Claim C5, amended: the validation score is checks_passed over
checks_total times 100 (7 checks when fuel_data is empty, 8 otherwise);
but is_valid is true for every structurally complete result — the only
false branch of the source requires a required dict key to be missing,
which cannot happen on parser-produced results — and in particular empty
fuel_data merely adds the No fuel data parsed warning. -/
theorem C5_score_formula (r : ParseResult) :
    (validateParsedData r).score =
      ((validateParsedData r).checks_passed : Rat) /
        ((validateParsedData r).checks_total : Rat) * 100 ∧
    (validateParsedData r).is_valid = true ∧
    (validateParsedData r).errors = [] ∧
    (r.fuel_data = [] → (validateParsedData r).checks_total = 7 ∧
      "No fuel data parsed" ∈ (validateParsedData r).warnings) ∧
    (r.fuel_data ≠ [] → (validateParsedData r).checks_total = 8) := by
  refine ⟨rfl, rfl, rfl, ?_, ?_⟩
  · intro h
    have hc4 : checkFuelData r = (0, 0, 0, ["No fuel data parsed"]) := by
      unfold checkFuelData
      rw [h]
      rfl
    constructor
    · show 3 + 1 + 1 + 1 + (checkFuelData r).2.1 + 1 = 7
      rw [hc4]
      rfl
    · show "No fuel data parsed" ∈
        (checkStation r).2 ++ (checkDateFormat r).2 ++ (checkFuelData r).2.2.2 ++ (checkTotals r).2
      rw [hc4]
      simp
  · intro h
    have hfe : r.fuel_data.isEmpty = false := by
      cases hl : r.fuel_data with
      | nil => exact absurd hl h
      | cons a l => rfl
    have hc4 : (checkFuelData r).2.1 = 1 := by
      unfold checkFuelData
      rw [if_neg (by simp [hfe])]
      split_ifs <;> rfl
    show 3 + 1 + 1 + 1 + (checkFuelData r).2.1 + 1 = 8
    rw [hc4]

/-- Claim C5, witness: the amended theorem applied to the concrete
no-fuel result. -/
theorem C5_witness :
    (validateParsedData noFuelSample).is_valid = true ∧
    "No fuel data parsed" ∈ (validateParsedData noFuelSample).warnings :=
  ⟨(C5_score_formula noFuelSample).2.1, ((C5_score_formula noFuelSample).2.2.2.1 rfl).2⟩

/-! ## Claim C7 -/

theorem checkStation_warn {r : ParseResult} {w : String} (hw : w ∈ (checkStation r).2) :
    w = "Station name is missing or default" := by
  unfold checkStation at hw
  split_ifs at hw <;> simp_all

theorem checkDateFormat_warn {r : ParseResult} {w : String} (hw : w ∈ (checkDateFormat r).2) :
    ∃ s, w = "Invalid date format: " ++ s := by
  unfold checkDateFormat at hw
  split_ifs at hw
  · simp at hw
  · simp only [List.mem_cons, List.not_mem_nil, or_false] at hw
    exact ⟨r.report_date, hw⟩

theorem checkFuelData_warn {r : ParseResult} {w : String} (hw : w ∈ (checkFuelData r).2.2.2) :
    w = "No fuel data parsed" ∨ w = "Negative values found in fuel data" := by
  unfold checkFuelData at hw
  split_ifs at hw <;> simp_all

theorem checkTotals_warn {r : ParseResult} {w : String} (hw : w ∈ (checkTotals r).2) :
    ∃ s, w = "Volume mismatch: fuel total=" ++ s := by
  unfold checkTotals at hw
  split at hw
  · dsimp only at hw
    split at hw
    · split at hw
      · simp at hw
      · simp only [List.mem_cons, List.not_mem_nil, or_false, String.append_assoc] at hw
        exact ⟨_, hw⟩
    · simp at hw
  · simp at hw

theorem validateParsedData_warnings (r : ParseResult) :
    ∀ w ∈ (validateParsedData r).warnings, isValidatorWarning w := by
  intro w hw
  have hconcat : (validateParsedData r).warnings =
      (checkStation r).2 ++ (checkDateFormat r).2 ++ (checkFuelData r).2.2.2 ++
        (checkTotals r).2 := rfl
  rw [hconcat] at hw
  simp only [List.mem_append, or_assoc] at hw
  rcases hw with h | h | h | h
  · exact Or.inl (checkStation_warn h)
  · exact Or.inr (Or.inl (checkDateFormat_warn h))
  · rcases checkFuelData_warn h with h | h
    · exact Or.inr (Or.inr (Or.inl h))
    · exact Or.inr (Or.inr (Or.inr (Or.inl h)))
  · exact Or.inr (Or.inr (Or.inr (Or.inr (checkTotals_warn h))))

theorem pyLines_isEmpty_false {text : String} (h : pyLines text ≠ []) :
    (pyLines text).isEmpty = false := by
  cases hl : pyLines text with
  | nil => exact absurd hl h
  | cons a l => rfl

theorem parseDailyReport_report_date (text : String) (now : NowClock)
    (h : pyLines text ≠ []) :
    (parseDailyReport text now).report_date = extractReportDate (pyLines text) now.today := by
  have hfe := pyLines_isEmpty_false h
  simp only [parseDailyReport, parseCore, hfe, Bool.false_eq_true, if_false]
  rfl

theorem parseDailyReport_warnings (text : String) (now : NowClock)
    (h : pyLines text ≠ []) :
    resultWarnings (parseDailyReport text now) =
      (validateParsedData (preValidationResult (pyLines text) now.today)).warnings := by
  have hfe := pyLines_isEmpty_false h
  simp only [parseDailyReport, parseCore, hfe, Bool.false_eq_true, if_false]
  rfl

/-- Claim C7, counterexample to the claim as stated: on an input with no
recognizable date anywhere, the report date is indeed the current date
in canonical form, but no DateFallbackUsed warning exists in the parse
result — the result of this parse carries exactly one warning, the
no-fuel-data one; the date fallback is only logged. -/
theorem C7_counterexample :
    (parseDailyReport "hello world" ⟨⟨27, 12, 2025⟩, "2025-12-27T08:00:00"⟩).report_date
      = "27/12/25" ∧
    resultWarnings (parseDailyReport "hello world" ⟨⟨27, 12, 2025⟩, "2025-12-27T08:00:00"⟩)
      = ["No fuel data parsed"] :=
  ⟨by with_unfolding_all rfl, by with_unfolding_all rfl⟩

/-- Claim C7, amended: when neither the date-range or single-date scan
nor the numeric fallback finds a date, the report date equals the
current system date in the canonical form — but no DateFallbackUsed
warning is recorded: every warning a parse result can carry is one of
the five validator messages, none of which concerns the date
fallback. -/
theorem C7_fallback_date (text : String) (now : NowClock)
    (h : pyLines text ≠ [])
    (h12 : findDatePhase12 (pyLines text) = none)
    (hnum : findNumericDate (pyLines text) = none) :
    (parseDailyReport text now).report_date = formatDMY now.today ∧
    ∀ w ∈ resultWarnings (parseDailyReport text now), isValidatorWarning w := by
  constructor
  · rw [parseDailyReport_report_date text now h]
    unfold extractReportDate
    rw [h12, hnum]
  · rw [parseDailyReport_warnings text now h]
    exact validateParsedData_warnings _

/-- Claim C7, witness: the amended theorem applied at a concrete
date-free input. -/
theorem C7_witness :
    (parseDailyReport "hello world" ⟨⟨1, 10, 2026⟩, "2026-10-01T00:00:00"⟩).report_date
        = formatDMY ⟨1, 10, 2026⟩ ∧
    ∀ w ∈ resultWarnings (parseDailyReport "hello world" ⟨⟨1, 10, 2026⟩, "2026-10-01T00:00:00"⟩),
      isValidatorWarning w :=
  C7_fallback_date "hello world" ⟨⟨1, 10, 2026⟩, "2026-10-01T00:00:00"⟩
    (by with_unfolding_all decide) (by with_unfolding_all rfl) (by with_unfolding_all rfl)

/-! ## Claim C8: aggregation lemmas -/

theorem sumVolFor_cons (f : FuelItem) (l : List FuelItem) (k : String) :
    sumVolFor (f :: l) k =
      if f.fuel_type = k then f.volume + sumVolFor l k else sumVolFor l k := by
  unfold sumVolFor
  by_cases h : f.fuel_type = k <;> simp [List.filter_cons, h]

theorem sumAmtFor_cons (f : FuelItem) (l : List FuelItem) (k : String) :
    sumAmtFor (f :: l) k =
      if f.fuel_type = k then f.amount + sumAmtFor l k else sumAmtFor l k := by
  unfold sumAmtFor
  by_cases h : f.fuel_type = k <;> simp [List.filter_cons, h]

theorem countFor_cons (f : FuelItem) (l : List FuelItem) (k : String) :
    countFor (f :: l) k =
      if f.fuel_type = k then countFor l k + 1 else countFor l k := by
  unfold countFor
  by_cases h : f.fuel_type = k <;> simp [List.filter_cons, h]

/-- Dict lookup in the accumulator of the pump aggregation. -/
def lookupAgg (acc : List (String × Rat × Rat × Nat)) (k : String) :
    Option (String × Rat × Rat × Nat) :=
  acc.find? (fun e => e.1 = k)

theorem lookupAgg_add (acc : List (String × Rat × Rat × Nat)) (f : FuelItem) (k : String) :
    lookupAgg (addPumpTotals acc f) k =
      if f.fuel_type = k then
        (match lookupAgg acc k with
         | some e => some (e.1, e.2.1 + f.volume, e.2.2.1 + f.amount, e.2.2.2 + 1)
         | none => some (f.fuel_type, f.volume, f.amount, 1))
      else lookupAgg acc k := by
  induction acc with
  | nil =>
    by_cases h : f.fuel_type = k <;> simp [addPumpTotals, lookupAgg, List.find?, h]
  | cons e rest ih =>
    unfold addPumpTotals
    by_cases he : e.1 = f.fuel_type
    · rw [if_pos he]
      by_cases hk : f.fuel_type = k
      · have hek : e.1 = k := he.trans hk
        simp [lookupAgg, List.find?, hek, hk]
      · have hek : ¬(e.1 = k) := fun hc => hk (he.symm.trans hc)
        simp [lookupAgg, List.find?, hek, hk]
    · rw [if_neg he]
      by_cases hek : e.1 = k
      · have hk : ¬(f.fuel_type = k) := fun hc => he (hek.trans hc.symm)
        simp [lookupAgg, List.find?, hek, hk]
      · have hd : decide (e.1 = k) = false := decide_eq_false hek
        simpa only [lookupAgg, List.find?, hd] using ih

theorem lookupAgg_foldl (l : List FuelItem) :
    ∀ (acc : List (String × Rat × Rat × Nat)) (k : String),
      lookupAgg (l.foldl addPumpTotals acc) k =
        match lookupAgg acc k with
        | some e => some (e.1, e.2.1 + sumVolFor l k, e.2.2.1 + sumAmtFor l k,
            e.2.2.2 + countFor l k)
        | none =>
          if countFor l k = 0 then none
          else some (k, sumVolFor l k, sumAmtFor l k, countFor l k) := by
  induction l with
  | nil =>
    intro acc k
    have h0 : sumVolFor [] k = 0 := rfl
    have h1 : sumAmtFor [] k = 0 := rfl
    have h2 : countFor [] k = 0 := rfl
    rw [List.foldl_nil, h0, h1, h2]
    cases h : lookupAgg acc k with
    | some e => simp
    | none => simp
  | cons f l ih =>
    intro acc k
    rw [List.foldl_cons, ih (addPumpTotals acc f) k, lookupAgg_add acc f k,
      sumVolFor_cons, sumAmtFor_cons, countFor_cons]
    by_cases hk : f.fuel_type = k
    · rw [if_pos hk, if_pos hk, if_pos hk, if_pos hk]
      cases h : lookupAgg acc k with
      | some e =>
        dsimp only
        simp only [Option.some.injEq, Prod.mk.injEq]
        refine ⟨?_, ?_, ?_, ?_⟩ <;> first | trivial | ring
      | none =>
        dsimp only
        rw [if_neg (by omega)]
        subst hk
        simp only [Option.some.injEq, Prod.mk.injEq]
        refine ⟨?_, ?_, ?_, ?_⟩ <;> first | trivial | ring
    · rw [if_neg hk, if_neg hk, if_neg hk, if_neg hk]

theorem addPumpTotals_keys (acc : List (String × Rat × Rat × Nat)) (f : FuelItem) :
    (addPumpTotals acc f).map (fun e => e.1) =
      if f.fuel_type ∈ acc.map (fun e => e.1) then acc.map (fun e => e.1)
      else acc.map (fun e => e.1) ++ [f.fuel_type] := by
  induction acc with
  | nil => simp [addPumpTotals]
  | cons e rest ih =>
    unfold addPumpTotals
    by_cases he : e.1 = f.fuel_type
    · rw [if_pos he]
      simp [he.symm]
    · rw [if_neg he]
      have hne : ¬(f.fuel_type = e.1) := fun hc => he hc.symm
      by_cases hm : f.fuel_type ∈ rest.map (fun x => x.1)
      · simp only [List.map_cons, List.mem_cons, hne, false_or, hm, if_pos, ih]
        try simp [hm]
      · simp only [List.map_cons, List.mem_cons, hne, false_or, hm, if_neg, ih]
        try simp [hm]

theorem foldl_addPumpTotals_nodup (l : List FuelItem) :
    ∀ acc : List (String × Rat × Rat × Nat), ((acc.map (fun e => e.1)).Nodup) →
      (((l.foldl addPumpTotals acc).map (fun e => e.1)).Nodup) := by
  induction l with
  | nil => intro acc h; exact h
  | cons f l ih =>
    intro acc h
    rw [List.foldl_cons]
    refine ih _ ?_
    rw [addPumpTotals_keys]
    split_ifs with hm
    · exact h
    · simp [List.nodup_append, h, hm]

theorem mem_lookupAgg {acc : List (String × Rat × Rat × Nat)}
    {e : String × Rat × Rat × Nat} (hmem : e ∈ acc)
    (hnd : (acc.map (fun x => x.1)).Nodup) : lookupAgg acc e.1 = some e := by
  induction acc with
  | nil => cases hmem
  | cons a rest ih =>
    rcases List.mem_cons.mp hmem with rfl | hmem
    · simp [lookupAgg, List.find?]
    · have hne : ¬(a.1 = e.1) := by
        intro hc
        have : e.1 ∈ rest.map (fun x => x.1) := List.mem_map_of_mem _ hmem
        rw [List.map_cons, List.nodup_cons] at hnd
        exact hnd.1 (hc ▸ this)
      have htail : (rest.map (fun x => x.1)).Nodup := by
        rw [List.map_cons, List.nodup_cons] at hnd
        exact hnd.2
      have hd : decide (a.1 = e.1) = false := decide_eq_false hne
      simp only [lookupAgg, List.find?, hd]
      exact ih hmem htail

theorem extractFuelDataFromPumps_sums (pumps : List Pump) :
    ∀ it ∈ extractFuelDataFromPumps pumps,
      it.volume = sumVolFor (fuelsOf pumps) it.fuel_type ∧
      it.amount = sumAmtFor (fuelsOf pumps) it.fuel_type ∧
      it.pump_count = some (countFor (fuelsOf pumps) it.fuel_type) := by
  intro it hit
  unfold extractFuelDataFromPumps at hit
  split_ifs at hit with hp
  · simp at hit
  · rw [List.mem_map] at hit
    obtain ⟨e, he, rfl⟩ := hit
    have hnd := foldl_addPumpTotals_nodup ((pumps.map Pump.fuels).flatten) [] (by simp)
    have hlk := mem_lookupAgg he hnd
    rw [lookupAgg_foldl] at hlk
    have hnone : lookupAgg [] e.1 = none := rfl
    rw [hnone] at hlk
    dsimp only at hlk
    split_ifs at hlk with hc
    simp only [Option.some.injEq] at hlk
    have hE : e = (e.1, sumVolFor ((pumps.map Pump.fuels).flatten) e.1,
        sumAmtFor ((pumps.map Pump.fuels).flatten) e.1,
        countFor ((pumps.map Pump.fuels).flatten) e.1) := hlk.symm
    refine ⟨?_, ?_, ?_⟩
    · exact congrArg (fun x => x.2.1) hE
    · exact congrArg (fun x => x.2.2.1) hE
    · exact congrArg (fun x => some x.2.2.2) hE

/-- Lifting the post-selection mapping: applied to the empty selection
it is the identity, so the parser's conditional application equals the
unconditional one. -/
theorem mapIfNonEmpty (l : List FuelItem) :
    (if !l.isEmpty then mapFuelTypesToStandard l else l) = mapFuelTypesToStandard l := by
  cases l <;> rfl

/-- Claim C8: fuel_data is assembled with fixed precedence — the
summary-section lines if any, else the aggregation across pump sections
(which sums volume and amount over every entry sharing a fuel type and
counts those entries in pump_count), else the direct full-document
fuel-line scan — and the selected source is then canonicalized by the
fuel-type mapper. -/
theorem C8_fuel_precedence (text : String) (now : NowClock) (h : pyLines text ≠ []) :
    ((parseDailyReport text now).fuel_data =
      mapFuelTypesToStandard
        (if parseSummaryData (pyLines text) ≠ [] then parseSummaryData (pyLines text)
         else if parsePumpData (pyLines text) ≠ [] then
           extractFuelDataFromPumps (parsePumpData (pyLines text))
         else extractFuelDataFromLines (pyLines text))) ∧
    (∀ pumps : List Pump, ∀ it ∈ extractFuelDataFromPumps pumps,
      it.volume = sumVolFor (fuelsOf pumps) it.fuel_type ∧
      it.amount = sumAmtFor (fuelsOf pumps) it.fuel_type ∧
      it.pump_count = some (countFor (fuelsOf pumps) it.fuel_type)) := by
  constructor
  · have hfe := pyLines_isEmpty_false h
    have hproj : (parseDailyReport text now).fuel_data =
        (preValidationResult (pyLines text) now.today).fuel_data := by
      simp only [parseDailyReport, parseCore, hfe, Bool.false_eq_true, if_false]
    rw [hproj]
    show (if !(if !(parseSummaryData (pyLines text)).isEmpty then parseSummaryData (pyLines text)
        else if !(parsePumpData (pyLines text)).isEmpty then
          extractFuelDataFromPumps (parsePumpData (pyLines text))
        else extractFuelDataFromLines (pyLines text)).isEmpty then
          mapFuelTypesToStandard (if !(parseSummaryData (pyLines text)).isEmpty then
            parseSummaryData (pyLines text)
          else if !(parsePumpData (pyLines text)).isEmpty then
            extractFuelDataFromPumps (parsePumpData (pyLines text))
          else extractFuelDataFromLines (pyLines text))
        else (if !(parseSummaryData (pyLines text)).isEmpty then parseSummaryData (pyLines text)
          else if !(parsePumpData (pyLines text)).isEmpty then
            extractFuelDataFromPumps (parsePumpData (pyLines text))
          else extractFuelDataFromLines (pyLines text))) = _
    rw [mapIfNonEmpty]
    congr 1
    by_cases hs : parseSummaryData (pyLines text) = []
    · by_cases hpd : parsePumpData (pyLines text) = []
      · simp [hs, hpd]
      · have : (parsePumpData (pyLines text)).isEmpty = false := by
          cases hl : parsePumpData (pyLines text) with
          | nil => exact absurd hl hpd
          | cons a l => rfl
        simp [hs, hpd, this]
    · have : (parseSummaryData (pyLines text)).isEmpty = false := by
        cases hl : parseSummaryData (pyLines text) with
        | nil => exact absurd hl hs
        | cons a l => rfl
      simp [hs, this]
  · exact extractFuelDataFromPumps_sums

/-- Claim C8, witness: the precedence theorem applied to a concrete
pump-structured report. -/
theorem C8_witness :
    ((parseDailyReport "Pump 1\nDiesel\t10\t9\nPump 2\nDiesel\t5\t4"
        ⟨⟨1, 10, 2026⟩, "t"⟩).fuel_data =
      mapFuelTypesToStandard
        (if parseSummaryData (pyLines "Pump 1\nDiesel\t10\t9\nPump 2\nDiesel\t5\t4") ≠ []
         then parseSummaryData (pyLines "Pump 1\nDiesel\t10\t9\nPump 2\nDiesel\t5\t4")
         else if parsePumpData (pyLines "Pump 1\nDiesel\t10\t9\nPump 2\nDiesel\t5\t4") ≠ [] then
           extractFuelDataFromPumps
             (parsePumpData (pyLines "Pump 1\nDiesel\t10\t9\nPump 2\nDiesel\t5\t4"))
         else extractFuelDataFromLines
           (pyLines "Pump 1\nDiesel\t10\t9\nPump 2\nDiesel\t5\t4"))) ∧
    (∀ pumps : List Pump, ∀ it ∈ extractFuelDataFromPumps pumps,
      it.volume = sumVolFor (fuelsOf pumps) it.fuel_type ∧
      it.amount = sumAmtFor (fuelsOf pumps) it.fuel_type ∧
      it.pump_count = some (countFor (fuelsOf pumps) it.fuel_type)) :=
  C8_fuel_precedence "Pump 1\nDiesel\t10\t9\nPump 2\nDiesel\t5\t4" ⟨⟨1, 10, 2026⟩, "t"⟩
    (by with_unfolding_all decide)

end Konchat
